import Mathlib

/-!
# ResumeOptimizer: a shallow embedding of the browser front end

Two scripts are embedded: `app.js` (the root variant, namespace `Root`) and
`web_interface/app.js` (namespace `WebInterface`).  Handlers are modelled as
functions on an explicit page state; browser built-ins (`String.prototype.trim`,
`String.prototype.includes`, `Number.prototype.toFixed`, `parseFloat`, timers)
are modelled from their ECMAScript / HTML definitions.
-/

namespace ResumeOptimizer

/-! ## JavaScript strings -/

/-- Code points removed by `String.prototype.trim`: ECMAScript `WhiteSpace`
(TAB, VT, FF, SP, NBSP, ZWNBSP and the Unicode space separators) together with
`LineTerminator` (LF, CR, LS, PS). -/
def isJsWhiteSpace (c : Char) : Bool :=
  c.val = 0x09 || c.val = 0x0A || c.val = 0x0B || c.val = 0x0C || c.val = 0x0D ||
  c.val = 0x20 || c.val = 0xA0 || c.val = 0x1680 ||
  (0x2000 ≤ c.val && c.val ≤ 0x200A) ||
  c.val = 0x2028 || c.val = 0x2029 || c.val = 0x202F || c.val = 0x205F ||
  c.val = 0x3000 || c.val = 0xFEFF

/-- The characters of `s.trim()`: leading and trailing white space removed. -/
def jsTrimChars (cs : List Char) : List Char :=
  ((cs.dropWhile isJsWhiteSpace).reverse.dropWhile isJsWhiteSpace).reverse

/-- JavaScript `s.trim()`. -/
def jsTrim (s : String) : String := String.mk (jsTrimChars s.data)

/-- Substring test on character lists: `pat` occurs somewhere in `cs`. -/
def includesChars : List Char → List Char → Bool
  | [], pat => pat.isEmpty
  | c :: cs, pat => pat.isPrefixOf (c :: cs) || includesChars cs pat

/-- JavaScript `s.includes(pat)`. -/
def jsIncludes (s pat : String) : Bool := includesChars s.data pat.data

/-- JavaScript truthiness of a string: only the empty string is falsy. -/
def jsTruthyString (s : String) : Bool := !s.data.isEmpty

/-- Decimal rendering of a non-negative integer, as produced by a template
literal or by string concatenation. -/
def natToString (n : Nat) : String := String.mk (Nat.toDigits 10 n)

/-! ## JavaScript numbers

Numbers are exact rationals.  The byte formatter only ever divides an integer
by a power of two and rounds to hundredths, and every value it prints has at
most two fractional digits, so on that path exact arithmetic and IEEE doubles
agree; `Math.floor(Math.log(n) / Math.log(1024))` is the exact integer
logarithm `Nat.log 1024 n`. -/

/-- The characters of `x.toFixed(2)` for `0 ≤ x < 10^21` (ECMAScript
`Number.prototype.toFixed`): `n` is the integer nearest to `100 x`, the larger
one on a tie; its decimal digits are left-padded with zeros to three digits and
a point is inserted before the last two. -/
def toFixed2Chars (x : ℚ) : List Char :=
  let n : Nat := ⌊x * 100 + 1 / 2⌋₊
  let m := Nat.toDigits 10 n
  let m := if m.length ≤ 2 then List.replicate (3 - m.length) '0' ++ m else m
  m.take (m.length - 2) ++ '.' :: m.drop (m.length - 2)

/-- JavaScript `x.toFixed(2)`. -/
def toFixed2 (x : ℚ) : String := String.mk (toFixed2Chars x)

/-- Value of a decimal digit character. -/
def digitValue (c : Char) : Nat := c.toNat - '0'.toNat

/-- Value of a run of decimal digits, most significant first. -/
def parseDigits (cs : List Char) : Nat :=
  cs.foldl (fun acc c => 10 * acc + digitValue c) 0

/-- JavaScript `parseFloat(s)` on an unsigned decimal literal
`digits` or `digits.digits` (the longest such prefix of `s` is read). -/
def parseFloat (s : String) : ℚ :=
  let ip := s.data.takeWhile Char.isDigit
  match s.data.dropWhile Char.isDigit with
  | '.' :: fs =>
    let fp := fs.takeWhile Char.isDigit
    (parseDigits ip : ℚ) + (parseDigits fp : ℚ) / (10 : ℚ) ^ fp.length
  | _ => (parseDigits ip : ℚ)

/-- Digits of a fractional part `0 ≤ f < 1`, up to `fuel` of them, stopping as
soon as the expansion terminates. -/
def fractionDigits : Nat → ℚ → List Char
  | 0, _ => []
  | fuel + 1, f =>
    if f = 0 then [] else
      let d : Nat := ⌊f * 10⌋₊
      Nat.digitChar d :: fractionDigits fuel (f * 10 - d)

/-- The characters of `String(x)` (ECMAScript `Number::toString`) for a
non-negative `x` below `10^21` whose decimal expansion terminates within
seventeen fractional digits: the integer part, then, if the fraction is not
zero, a point and the fractional digits without trailing zeros. -/
def numberToStringChars (x : ℚ) : List Char :=
  let ip : Nat := ⌊x⌋₊
  let f : ℚ := x - ip
  Nat.toDigits 10 ip ++ (if f = 0 then [] else '.' :: fractionDigits 17 f)

/-- JavaScript `String(x)`, as used by `x + ' '`. -/
def numberToString (x : ℚ) : String := String.mk (numberToStringChars x)

/-- String concatenation with an array element that may be `undefined`:
`undefined` is rendered as the text `undefined`. -/
def elementToString (e : Option String) : String := e.getD "undefined"

/-! ## Files and result records -/

/-- The fields of a DOM `File` that the scripts read; `text` is what a
`FileReader` decodes from it. -/
structure File where
  name : String
  type : String
  size : Nat
  text : String
deriving DecidableEq

/-- JavaScript `s.endsWith(suffix)`. -/
def jsEndsWith (s suffix : String) : Bool := suffix.data.isSuffixOf s.data

/-- The decoded response body, or the mock record: a JSON object whose three
fields may each be absent; `matchScore` is a number, the other two are arrays
of strings. -/
structure OptimizationResult where
  matchScore : Option ℚ
  keywords : Option (List String)
  suggestions : Option (List String)
deriving DecidableEq

/-- How `response.json()` settles. -/
inductive BodyOutcome
  | decoded (result : OptimizationResult)
  | undecodable (message : String)
deriving DecidableEq

/-- How `fetch(...)` settles: it rejects with an error carrying `message`, or
it yields a response with an HTTP status and a body. -/
inductive FetchOutcome
  | rejected (message : String)
  | response (status : Nat) (body : BodyOutcome)
deriving DecidableEq

/-- The `ok` attribute of a `Response` (Fetch standard): status in 200..299. -/
def responseOk (status : Nat) : Bool := 200 ≤ status && status ≤ 299

/-- A value appended to a `FormData`. -/
inductive FormValue
  | file (f : File)
  | text (s : String)
deriving DecidableEq

/-- The notice raised when no resume file is selected. -/
def missingResumeNotice : String := "Please upload your resume file."

/-- The notice raised when neither a job file nor job text is given. -/
def missingJobDescriptionNotice : String :=
  "Please provide a job description (upload file or paste text)."

/-- The simulated match score `Math.floor(Math.random() * 30) + 65`
(`app.js` line 310, `web_interface/app.js` line 75), for a random draw `r`
taken from any ordered field with a floor function. -/
def simulatedScore {α : Type} [LinearOrderedField α] [FloorRing α] (r : α) : Int :=
  ⌊r * 30⌋ + 65

namespace Root

/-- Byte-size formatter, `formatBytes` of `app.js` (lines 127-133). -/
def formatBytes (bytes : Nat) : String :=
  if bytes = 0 then "0 Bytes" else
    let k : Nat := 1024
    let sizes : List String := ["Bytes", "KB", "MB"]
    let i : Nat := Nat.log k bytes
    numberToString (parseFloat (toFixed2 ((bytes : ℚ) / (k : ℚ) ^ i))) ++ " " ++
      elementToString sizes[i]?

/-- The content and text colour of a slot's status element
(`resumeInfo`, `jobDescInfo`). -/
structure SlotInfo where
  innerHTML : String
  color : String
deriving DecidableEq

/-- The success status written for an accepted file: check mark, file name and
formatted size, in green. -/
def successInfo (file : File) : SlotInfo :=
  { innerHTML := "<i class=\"fas fa-check-circle\"></i> " ++ file.name ++ " (" ++
      formatBytes file.size ++ ")",
    color := "#27ae60" }

/-- The rejection status of the resume slot. -/
def resumeRejectedInfo : SlotInfo :=
  { innerHTML :=
      "<i class=\"fas fa-exclamation-circle\"></i> Please upload PDF, DOCX, or TXT files only",
    color := "#e74c3c" }

/-- The rejection status of the job-description slot. -/
def jobDescRejectedInfo : SlotInfo :=
  { innerHTML :=
      "<i class=\"fas fa-exclamation-circle\"></i> Please upload TXT, DOCX, or PDF files only",
    color := "#e74c3c" }

/-- The callbacks the script hands to the browser.  `stepTick` carries the
closure variable `currentStep` of its `simulateLoadingSteps` call. -/
inductive Task
  | stepTick (currentStep : Nat)
  | clearStepInterval (interval : Nat)
  | fetchSettled (outcome : FetchOutcome)
  | mockResults
  | readerLoaded (text : String)
deriving DecidableEq

/-- A pending callback: `period = some d` for `setInterval`, `none` for
one-shot callbacks. Times are in milliseconds. -/
structure Timer where
  id : Nat
  due : Nat
  period : Option Nat
  task : Task
deriving DecidableEq

/-- The page state the script reads and writes. -/
structure Page where
  now : Nat
  nextTimerId : Nat
  timers : List Timer
  resumeFile : Option File
  jobDescFile : Option File
  jobTextArea : String
  template : String
  industry : String
  resumeInfo : SlotInfo
  jobDescInfo : SlotInfo
  loadingModalDisplay : String
  stepCount : Nat
  activeStep : Option Nat
  alerts : List String
  requests : List (List (String × FormValue))
  scoreNumber : ℚ
  strokeDasharrayOverPi : ℚ
  strokeDashoffsetOverPi : ℚ
  stroke : String
  keywordsList : List String
  suggestionsList : List String
  resultsSectionDisplay : String
  downloadListeners : Nat
  simulateResultsCalls : Nat
  displayResultsCalls : Nat

/-- `setTimeout(task, delay)`. -/
def setTimeout (task : Task) (delay : Nat) (p : Page) : Page :=
  { p with
    nextTimerId := p.nextTimerId + 1
    timers := p.timers ++ [{ id := p.nextTimerId, due := p.now + delay, period := none,
                             task := task }] }

/-- `setInterval(task, delay)`; the returned handle is the old `nextTimerId`. -/
def setInterval (task : Task) (delay : Nat) (p : Page) : Page :=
  { p with
    nextTimerId := p.nextTimerId + 1
    timers := p.timers ++ [{ id := p.nextTimerId, due := p.now + delay, period := some delay,
                             task := task }] }

/-- `clearInterval(id)`. -/
def clearInterval (id : Nat) (p : Page) : Page :=
  { p with timers := p.timers.filter (fun t => t.id != id) }

/-- `alert(message)`. -/
def alert (message : String) (p : Page) : Page :=
  { p with alerts := p.alerts ++ [message] }

/-- The `change` handler of `resumeFileInput` (lines 18-24); `file` is
`e.target.files[0]`, which the picker has already stored in the input. -/
def resumeFileChange (file : Option File) (p : Page) : Page :=
  let p := { p with resumeFile := file }
  match file with
  | some f => { p with resumeInfo := successInfo f }
  | none => p

/-- The `change` handler of `jobDescFileInput` (lines 26-41); `readDelay` is
the time the `FileReader` takes. -/
def jobDescFileChange (file : Option File) (readDelay : Nat) (p : Page) : Page :=
  let p := { p with jobDescFile := file }
  match file with
  | some f =>
    let p := { p with jobDescInfo := successInfo f }
    if f.type = "text/plain" || jsEndsWith f.name ".txt" then
      setTimeout (.readerLoaded f.text) readDelay p
    else p
  | none => p

/-- `handleResumeDrop` (lines 84-98); `file` is `e.dataTransfer.files[0]`. -/
def handleResumeDrop (file : Option File) (p : Page) : Page :=
  match file with
  | some f =>
    if f.type = "application/pdf" || jsEndsWith f.name ".docx" || jsEndsWith f.name ".txt" then
      { p with resumeFile := some f, resumeInfo := successInfo f }
    else { p with resumeInfo := resumeRejectedInfo }
  | none => { p with resumeInfo := resumeRejectedInfo }

/-- `handleJobDescDrop` (lines 100-124). -/
def handleJobDescDrop (file : Option File) (readDelay : Nat) (p : Page) : Page :=
  match file with
  | some f =>
    if f.type = "text/plain" || jsEndsWith f.name ".txt" || jsEndsWith f.name ".docx" ||
        jsEndsWith f.name ".pdf" then
      let p := { p with jobDescFile := some f, jobDescInfo := successInfo f }
      if f.type = "text/plain" || jsEndsWith f.name ".txt" then
        setTimeout (.readerLoaded f.text) readDelay p
      else p
    else { p with jobDescInfo := jobDescRejectedInfo }
  | none => { p with jobDescInfo := jobDescRejectedInfo }

/-- `simulateLoadingSteps` (lines 207-223): an interval of 1000 ms for the
step ticker, and a one-shot timer of 10000 ms that clears it. -/
def simulateLoadingSteps (p : Page) : Page :=
  let interval := p.nextTimerId
  let p := setInterval (.stepTick 0) 1000 p
  setTimeout (.clearStepInterval interval) 10000 p

/-- `updateScoreCircle` (lines 263-280).  Lengths on the circle are kept as
multiples of π: the circumference `2 * Math.PI * 54` is `108` π. -/
def updateScoreCircle (score : ℚ) (p : Page) : Page :=
  let radius : ℚ := 54
  let circumference : ℚ := 2 * radius
  let offset : ℚ := circumference - (score / 100) * circumference
  let p := { p with strokeDasharrayOverPi := circumference, strokeDashoffsetOverPi := offset,
                    scoreNumber := score }
  if score ≥ 80 then { p with stroke := "#2ecc71" }
  else if score ≥ 60 then { p with stroke := "#3498db" }
  else { p with stroke := "#e74c3c" }

/-- `setupDownloadButtons` (lines 283-300): one more pair of click listeners. -/
def setupDownloadButtons (p : Page) : Page :=
  { p with downloadListeners := p.downloadListeners + 1 }

/-- The value of `result.matchScore || 78`: the default replaces an absent
score and also the falsy number zero. -/
def scoreOrDefault (matchScore : Option ℚ) : ℚ :=
  match matchScore with
  | some s => if s = 0 then 78 else s
  | none => 78

/-- `displayResults` (lines 226-260). -/
def displayResults (result : OptimizationResult) (p : Page) : Page :=
  let p := { p with displayResultsCalls := p.displayResultsCalls + 1 }
  let score := scoreOrDefault result.matchScore
  let p := updateScoreCircle score p
  let p :=
    match result.keywords with
    | some ks => if ks.length > 0 then { p with keywordsList := ks.take 8 } else p
    | none => p
  let p :=
    match result.suggestions with
    | some ss => if ss.length > 0 then { p with suggestionsList := ss.take 5 } else p
    | none => p
  let p := setupDownloadButtons p
  { p with resultsSectionDisplay := "block" }

/-- The record built inside `simulateResults` (lines 309-318) from the random
draw `r`. -/
def mockResult (r : ℚ) : OptimizationResult :=
  { matchScore := some ((simulatedScore r : Int) : ℚ)
    keywords := some ["JavaScript", "React", "Node.js", "AWS", "Agile", "Python", "SQL", "Git"]
    suggestions := some [
      "Add \"Docker\" to your skills section",
      "Quantify your achievements with specific numbers and percentages",
      "Include more leadership-related keywords for managerial roles",
      "Add a projects section to showcase specific implementations"] }

/-- `simulateResults` (lines 303-322): the mock is rendered 3000 ms later. -/
def simulateResults (p : Page) : Page :=
  let p := { p with simulateResultsCalls := p.simulateResultsCalls + 1 }
  setTimeout .mockResults 3000 p

/-- The notice that announces demo mode. -/
def demoModeNotice : String :=
  "Backend server is not running. Starting demo mode with simulated results."

/-- The notice of the hard-error branch. -/
def errorNotice (message : String) : String :=
  "Error: " ++ message ++ ". Please check if the backend server is running."

/-- The `try` block of `optimizeResume` (lines 172-191) up to the decoded
result: the record to render, or the message of the error that is thrown. -/
def tryBlock : FetchOutcome → Except String OptimizationResult
  | .rejected message => .error message
  | .response status body =>
    if !responseOk status then .error ("Server error: " ++ natToString status)
    else
      match body with
      | .decoded result => .ok result
      | .undecodable message => .error message

/-- The `catch` block of `optimizeResume` (lines 192-203). -/
def catchBlock (message : String) (p : Page) : Page :=
  let p := { p with loadingModalDisplay := "none" }
  if jsIncludes message "Failed to fetch" then
    simulateResults (alert demoModeNotice p)
  else
    alert (errorNotice message) p

/-- The part of `optimizeResume` that runs once `fetch` has settled
(lines 180-203). -/
def fetchSettled (outcome : FetchOutcome) (p : Page) : Page :=
  match tryBlock outcome with
  | .ok result => displayResults result { p with loadingModalDisplay := "none" }
  | .error message => catchBlock message p

/-- `optimizeResume` (lines 136-204) up to the `await`: validation, the loading
modal, the step ticker, the form data and the request, which settles after
`latency` ms with `outcome`. -/
def optimizeResume (latency : Nat) (outcome : FetchOutcome) (p : Page) : Page :=
  let resumeFile := p.resumeFile
  let jobDescFile := p.jobDescFile
  let jobText := jsTrim p.jobTextArea
  match resumeFile with
  | none => alert missingResumeNotice p
  | some resume =>
    if jobDescFile.isNone && !jsTruthyString jobText then
      alert missingJobDescriptionNotice p
    else
      let p := { p with loadingModalDisplay := "flex" }
      let p := simulateLoadingSteps p
      let formData : List (String × FormValue) := [("resume", .file resume)]
      let formData :=
        match jobDescFile with
        | some f => formData ++ [("jobDescriptionFile", .file f)]
        | none => formData
      let formData :=
        if jsTruthyString jobText then formData ++ [("jobDescriptionText", .text jobText)]
        else formData
      let formData := formData ++ [("template", .text p.template), ("industry", .text p.industry)]
      let p := { p with requests := p.requests ++ [formData] }
      setTimeout (.fetchSettled outcome) latency p

/-- Running one callback.  A step tick with no step elements throws before it
advances, and leaves the page as it was; `r` is the draw of `Math.random()`. -/
def runTask (r : ℚ) (task : Task) (p : Page) : Page × Task :=
  match task with
  | .stepTick currentStep =>
    if currentStep < p.stepCount then
      ({ p with activeStep := some currentStep },
        .stepTick (if currentStep + 1 ≥ p.stepCount then 0 else currentStep + 1))
    else ({ p with activeStep := none }, task)
  | .clearStepInterval interval => (clearInterval interval p, task)
  | .fetchSettled outcome => (fetchSettled outcome p, task)
  | .mockResults =>
    (displayResults (mockResult r) { p with loadingModalDisplay := "none" }, task)
  | .readerLoaded text => ({ p with jobTextArea := text }, task)

/-- The pending callback that fires first among those due by time `t`:
earliest due time, and among equals the one registered first. -/
def nextDue (t : Nat) (timers : List Timer) : Option Timer :=
  (timers.filter (fun tm => tm.due ≤ t)).foldl
    (fun best tm =>
      match best with
      | none => some tm
      | some b => if tm.due < b.due then some tm else some b)
    none

/-- Firing a timer: the clock moves to its due time, a one-shot timer is
removed, an interval is re-armed one period later with its updated closure. -/
def fire (r : ℚ) (tm : Timer) (p : Page) : Page :=
  let p := { p with now := max p.now tm.due }
  match tm.period with
  | none =>
    (runTask r tm.task { p with timers := p.timers.filter (fun x => x.id != tm.id) }).1
  | some d =>
    let (p, task) := runTask r tm.task p
    { p with timers := p.timers.map (fun x =>
        if x.id = tm.id then { x with due := tm.due + d, task := task } else x) }

/-- The event loop: callbacks due by time `t` are fired in order, then the
clock is set to `t`.  `fuel` bounds the number of callbacks fired. -/
def runUntil (r : ℚ) : Nat → Nat → Page → Page
  | 0, _, p => p
  | fuel + 1, t, p =>
    match nextDue t p.timers with
    | none => { p with now := max p.now t }
    | some tm => runUntil r fuel t (fire r tm p)

/-- A freshly loaded page on which nothing has been selected: the
`DOMContentLoaded` handler has drawn the score circle for zero. -/
def initialPage (stepCount : Nat) : Page :=
  updateScoreCircle 0
    { now := 0, nextTimerId := 0, timers := [], resumeFile := none, jobDescFile := none,
      jobTextArea := "", template := "", industry := "",
      resumeInfo := { innerHTML := "", color := "" },
      jobDescInfo := { innerHTML := "", color := "" },
      loadingModalDisplay := "none", stepCount := stepCount, activeStep := none,
      alerts := [], requests := [], scoreNumber := 0, strokeDasharrayOverPi := 0,
      strokeDashoffsetOverPi := 0, stroke := "", keywordsList := [], suggestionsList := [],
      resultsSectionDisplay := "none", downloadListeners := 0, simulateResultsCalls := 0,
      displayResultsCalls := 0 }

end Root

namespace WebInterface

/-- Byte-size formatter, `formatBytes` of `web_interface/app.js` (lines 32-38). -/
def formatBytes (bytes : Nat) : String :=
  if bytes = 0 then "0 Bytes" else
    let k : Nat := 1024
    let sizes : List String := ["Bytes", "KB", "MB"]
    let i : Nat := Nat.log k bytes
    numberToString (parseFloat (toFixed2 ((bytes : ℚ) / (k : ℚ) ^ i))) ++ " " ++
      elementToString sizes[i]?

/-- The callbacks this variant hands to the browser. -/
inductive Task
  | demoResults
  | readerLoaded (text : String)
deriving DecidableEq

/-- The page state of the simpler variant; `pending` holds the one-shot
callbacks with their due times in milliseconds. -/
structure Page where
  now : Nat
  pending : List (Nat × Task)
  resumeFile : Option File
  jobFile : Option File
  jobText : String
  resumeInfo : String × String
  jobInfo : String × String
  loadingDisplay : String
  alerts : List String
  matchScore : String
  scoreFillWidth : String
  keywordsList : String
  suggestionsList : String
  resultsSectionDisplay : String

/-- `alert(message)`. -/
def alert (message : String) (p : Page) : Page :=
  { p with alerts := p.alerts ++ [message] }

/-- The status written for a picked file: tick, name, formatted size, green. -/
def successInfo (file : File) : String × String :=
  ("✓ " ++ file.name ++ " (" ++ formatBytes file.size ++ ")", "#27ae60")

/-- The `change` handler of `resumeFile` (lines 4-11). -/
def resumeFileChange (file : Option File) (p : Page) : Page :=
  let p := { p with resumeFile := file }
  match file with
  | some f => { p with resumeInfo := successInfo f }
  | none => p

/-- The `change` handler of `jobFile` (lines 13-29). -/
def jobFileChange (file : Option File) (readDelay : Nat) (p : Page) : Page :=
  let p := { p with jobFile := file }
  match file with
  | some f =>
    let p := { p with jobInfo := successInfo f }
    if f.type = "text/plain" || jsEndsWith f.name ".txt" then
      { p with pending := p.pending ++ [(p.now + readDelay, .readerLoaded f.text)] }
    else p
  | none => p

/-- `optimizeResume` (lines 41-70): validation, the loading indicator, and
the timer that shows the demo results 2000 ms later. -/
def optimizeResume (p : Page) : Page :=
  let resumeFile := p.resumeFile
  let jobFile := p.jobFile
  let jobText := jsTrim p.jobText
  if resumeFile.isNone then alert missingResumeNotice p
  else if jobFile.isNone && !jsTruthyString jobText then alert missingJobDescriptionNotice p
  else
    let p := { p with loadingDisplay := "flex" }
    { p with pending := p.pending ++ [(p.now + 2000, .demoResults)] }

/-- `showDemoResults` (lines 73-107).  `r` is the draw of `Math.random()` for
the score; `shuffled` is the order in which the comparator-randomised `sort`
leaves the seven keywords. -/
def showDemoResults (r : ℚ) (shuffled : List String) (p : Page) : Page :=
  let score : Int := simulatedScore r
  let selectedKeywords := shuffled.take 5
  let suggestions := [
    "Add \"Docker\" to your skills section",
    "Quantify achievements with specific numbers",
    "Include more leadership keywords",
    "Add a projects section"]
  { p with
    matchScore := toString score ++ "%"
    scoreFillWidth := toString score ++ "%"
    keywordsList := " ".intercalate
      (selectedKeywords.map fun k => "<span class=\"keyword\">" ++ k ++ "</span>")
    suggestionsList := "".intercalate (suggestions.map fun s => "<li>" ++ s ++ "</li>")
    resultsSectionDisplay := "block" }

/-- Running one callback (lines 63-69 and 23-25). -/
def runTask (r : ℚ) (shuffled : List String) (task : Task) (p : Page) : Page :=
  match task with
  | .demoResults => showDemoResults r shuffled { p with loadingDisplay := "none" }
  | .readerLoaded text => { p with jobText := text }

end WebInterface

/-! ## Reference definition of the byte formatter

The definitions below follow the wording of the specification, not the code. -/

/-- The unique index `i` in `{0, 1, 2}` with `1024 ^ i ≤ n < 1024 ^ (i + 1)`,
for `1 ≤ n < 1024 ^ 3`. -/
def unitIndexRef (n : Nat) : Nat :=
  if n < 1024 then 0 else if n < 1024 ^ 2 then 1 else 2

/-- The value `n / 1024 ^ i` rounded to two decimal places, ties rounded up,
counted in hundredths. -/
def roundedHundredthsRef (n i : Nat) : Nat :=
  (round ((n : ℚ) / (1024 : ℚ) ^ i * 100)).toNat

/-- Decimal rendering of `h` hundredths with exactly two fractional digits. -/
def twoDecimalsRef (h : Nat) : List Char :=
  Nat.toDigits 10 (h / 100) ++ ['.', Nat.digitChar (h / 10 % 10), Nat.digitChar (h % 10)]

/-- Removal of trailing fractional zeros, and then of a bare decimal point. -/
def stripFractionRef (cs : List Char) : List Char :=
  let t := (cs.reverse.dropWhile (fun c => c == '0')).reverse
  if t.getLast? = some '.' then t.dropLast else t

/-- The i-th unit of (Bytes, KB, MB). -/
def unitRef (i : Nat) : String :=
  match i with
  | 0 => "Bytes"
  | 1 => "KB"
  | _ => "MB"

/-- The reference byte formatter on `0 ≤ n < 1024 ^ 3`. -/
def formatBytesRef (n : Nat) : String :=
  if n = 0 then "0 Bytes" else
    let i := unitIndexRef n
    String.mk (stripFractionRef (twoDecimalsRef (roundedHundredthsRef n i))) ++ " " ++ unitRef i

/-! ## Concrete inputs used in the examples -/

/-- A resume file in PDF format. -/
def sampleResume : File :=
  { name := "cv.pdf", type := "application/pdf", size := 1536, text := "" }

/-- An image file, outside both accepted sets. -/
def samplePhoto : File :=
  { name := "photo.png", type := "image/png", size := 2048, text := "" }

/-- A fresh root page with the given form inputs. -/
def Root.pageWith (resume job : Option File) (jobText : String) : Root.Page :=
  { Root.initialPage 4 with resumeFile := resume, jobDescFile := job, jobTextArea := jobText }

/-- A fresh page of the simpler variant with the given form inputs. -/
def WebInterface.pageWith (resume job : Option File) (jobText : String) : WebInterface.Page :=
  { now := 0, pending := [], resumeFile := resume, jobFile := job, jobText := jobText,
    resumeInfo := ("", ""), jobInfo := ("", ""), loadingDisplay := "none", alerts := [],
    matchScore := "", scoreFillWidth := "", keywordsList := "", suggestionsList := "",
    resultsSectionDisplay := "none" }

/-- The score the specification expects the indicator to show: 78 for an
absent `matchScore`, otherwise `matchScore` clamped to `[0, 100]`. -/
def clampedScoreRef (matchScore : Option ℚ) : ℚ :=
  match matchScore with
  | none => 78
  | some s => max 0 (min 100 s)

/-- A record with ten keywords and six suggestions. -/
def sampleResult : OptimizationResult :=
  { matchScore := some 150
    keywords := some ["k1", "k2", "k3", "k4", "k5", "k6", "k7", "k8", "k9", "k10"]
    suggestions := some ["s1", "s2", "s3", "s4", "s5", "s6"] }

/-- A page that already shows one keyword and one suggestion. -/
def Root.usedPage : Root.Page :=
  { Root.initialPage 4 with keywordsList := ["old keyword"], suggestionsList := ["old advice"] }

/-- The accepted set of the resume slot, in the words of the specification:
MIME type `application/pdf`, or a name ending in `.docx` or `.txt`. -/
def resumeAcceptedRef (f : File) : Bool :=
  f.type = "application/pdf" || jsEndsWith f.name ".docx" || jsEndsWith f.name ".txt"

/-- The accepted set of the job-description slot, in the words of the
specification: MIME type `text/plain`, or a name ending in `.txt`, `.docx` or
`.pdf`. -/
def jobDescAcceptedRef (f : File) : Bool :=
  f.type = "text/plain" || jsEndsWith f.name ".txt" || jsEndsWith f.name ".docx" ||
    jsEndsWith f.name ".pdf"

/-- A response body that is not JSON, answered with status 200, together with
the message V8 gives to the resulting `SyntaxError`. -/
def misleadingBody : FetchOutcome :=
  .response 200 (.undecodable "Unexpected token 'F', \"Failed to fetch\" is not valid JSON")

/-- The step ticker is active: its interval is still registered. -/
def Root.tickerActive (p : Root.Page) : Bool :=
  p.timers.any fun tm =>
    match tm.task with
    | .stepTick _ => true
    | _ => false

/-- The colour `updateScoreCircle` chooses for a score. -/
def Root.strokeFor (score : ℚ) : String :=
  if score ≥ 80 then "#2ecc71" else if score ≥ 60 then "#3498db" else "#e74c3c"

/-- The keyword display after rendering `keywords` over `old`. -/
def Root.keywordsAfter (keywords : Option (List String)) (old : List String) : List String :=
  match keywords with
  | some ks => if ks.length > 0 then ks.take 8 else old
  | none => old

/-- The suggestion display after rendering `suggestions` over `old`. -/
def Root.suggestionsAfter (suggestions : Option (List String)) (old : List String) :
    List String :=
  match suggestions with
  | some ss => if ss.length > 0 then ss.take 5 else old
  | none => old

/-- A page on which a resume and a job text have been entered and
`optimizeResume` has just been called, the request settling at once. -/
def Root.submittedPage (outcome : FetchOutcome) : Root.Page :=
  Root.optimizeResume 0 outcome (Root.pageWith (some sampleResume) none "developer")

/-- Decimal rendering of `h` hundredths without trailing fractional zeros and
without a bare decimal point. -/
def renderHundredths (h : Nat) : List Char :=
  Nat.toDigits 10 (h / 100) ++
    (if h % 100 = 0 then []
     else if h % 10 = 0 then ['.', Nat.digitChar (h / 10 % 10)]
     else ['.', Nat.digitChar (h / 10 % 10), Nat.digitChar (h % 10)])

/-- The integer nearest to `100 * n / 1024 ^ i`, the larger one on a tie, in
natural-number arithmetic. -/
def hundredths (n i : Nat) : Nat := (200 * n + 1024 ^ i) / (2 * 1024 ^ i)


/-! ## Submission validation -/

theorem all_of_all_dropWhile (p : Char → Bool) (cs : List Char)
    (h : ∀ c ∈ cs.dropWhile p, p c = true) : ∀ c ∈ cs, p c = true := by
  induction cs with
  | nil => intro c hc; cases hc
  | cons a as ih =>
    by_cases ha : p a = true
    · rw [List.dropWhile_cons_of_pos ha] at h
      intro c hc
      rcases List.mem_cons.mp hc with rfl | hc
      · exact ha
      · exact ih h c hc
    · rw [List.dropWhile_cons_of_neg ha] at h
      exact h

theorem jsTrimChars_eq_nil_iff (cs : List Char) :
    jsTrimChars cs = [] ↔ ∀ c ∈ cs, isJsWhiteSpace c = true := by
  unfold jsTrimChars
  rw [List.reverse_eq_nil_iff, List.dropWhile_eq_nil_iff]
  constructor
  · intro h
    apply all_of_all_dropWhile
    intro c hc
    exact h c (List.mem_reverse.mpr hc)
  · intro h c hc
    exact h c ((List.dropWhile_sublist _).subset (List.mem_reverse.mp hc))

theorem jsTruthyString_jsTrim (s : String) :
    jsTruthyString (jsTrim s) = false ↔ ∀ c ∈ s.data, isJsWhiteSpace c = true := by
  rw [← jsTrimChars_eq_nil_iff]
  simp [jsTruthyString, jsTrim]

theorem jsTrim_eq_empty_iff (s : String) :
    jsTrim s = "" ↔ ∀ c ∈ s.data, isJsWhiteSpace c = true := by
  rw [← jsTrimChars_eq_nil_iff]
  unfold jsTrim
  constructor
  · intro h
    have := congrArg String.data h
    simpa using this
  · intro h
    rw [h]

/-- C1: submission validation in `optimizeResume`, both variants.  Without a
resume file the only effect is the missing-resume notice, whatever the job
inputs are; with a resume file, no job file and a job text that is empty after
trimming, the only effect is the missing-job-description notice; in every
other case no notice is raised, the loading indicator is shown and the
submission starts.  A text is empty after trimming exactly when all its
characters are white space. -/
theorem submission_validation :
    (∀ (latency : Nat) (outcome : FetchOutcome) (p : Root.Page),
      (p.resumeFile = none →
        Root.optimizeResume latency outcome p = Root.alert missingResumeNotice p) ∧
      (p.resumeFile ≠ none → p.jobDescFile = none → jsTrim p.jobTextArea = "" →
        Root.optimizeResume latency outcome p = Root.alert missingJobDescriptionNotice p) ∧
      (p.resumeFile ≠ none → (p.jobDescFile ≠ none ∨ jsTrim p.jobTextArea ≠ "") →
        (Root.optimizeResume latency outcome p).loadingModalDisplay = "flex" ∧
        (Root.optimizeResume latency outcome p).alerts = p.alerts ∧
        (Root.optimizeResume latency outcome p).requests.length = p.requests.length + 1 ∧
        (Root.optimizeResume latency outcome p).timers.length = p.timers.length + 3)) ∧
    (∀ (p : WebInterface.Page),
      (p.resumeFile = none →
        WebInterface.optimizeResume p = WebInterface.alert missingResumeNotice p) ∧
      (p.resumeFile ≠ none → p.jobFile = none → jsTrim p.jobText = "" →
        WebInterface.optimizeResume p = WebInterface.alert missingJobDescriptionNotice p) ∧
      (p.resumeFile ≠ none → (p.jobFile ≠ none ∨ jsTrim p.jobText ≠ "") →
        (WebInterface.optimizeResume p).loadingDisplay = "flex" ∧
        (WebInterface.optimizeResume p).alerts = p.alerts ∧
        (WebInterface.optimizeResume p).pending = p.pending ++ [(p.now + 2000, .demoResults)])) ∧
    (∀ s : String, jsTrim s = "" ↔ ∀ c ∈ s.data, isJsWhiteSpace c = true) := by
  refine ⟨?_, ?_, jsTrim_eq_empty_iff⟩
  · intro latency outcome p
    refine ⟨?_, ?_, ?_⟩
    · intro h
      simp [Root.optimizeResume, h]
    · intro h1 h2 h3
      obtain ⟨f, hf⟩ := Option.ne_none_iff_exists'.mp h1
      have h4 : jsTruthyString (jsTrim p.jobTextArea) = false := by rw [h3]; rfl
      simp [Root.optimizeResume, hf, h2, h4]
    · intro h1 h2
      obtain ⟨f, hf⟩ := Option.ne_none_iff_exists'.mp h1
      have h4 : (p.jobDescFile.isNone && !jsTruthyString (jsTrim p.jobTextArea)) = false := by
        rcases h2 with h2 | h2
        · cases hj : p.jobDescFile with
          | none => exact absurd hj h2
          | some g => simp
        · have : jsTruthyString (jsTrim p.jobTextArea) = true := by
            by_contra hc
            rw [Bool.not_eq_true] at hc
            exact h2 ((jsTrim_eq_empty_iff _).mpr ((jsTruthyString_jsTrim _).mp hc))
          simp [this]
      simp only [Root.optimizeResume, hf, h4]
      refine ⟨rfl, rfl, ?_, ?_⟩
      · simp [Root.setTimeout, Root.simulateLoadingSteps, Root.setInterval]
      · simp [Root.setTimeout, Root.simulateLoadingSteps, Root.setInterval]
  · intro p
    refine ⟨?_, ?_, ?_⟩
    · intro h
      simp [WebInterface.optimizeResume, h]
    · intro h1 h2 h3
      have h4 : jsTruthyString (jsTrim p.jobText) = false := by rw [h3]; rfl
      have h5 : p.resumeFile.isNone = false := by
        cases hr : p.resumeFile with
        | none => exact absurd hr h1
        | some g => rfl
      simp [WebInterface.optimizeResume, h5, h2, h4]
    · intro h1 h2
      have h5 : p.resumeFile.isNone = false := by
        cases hr : p.resumeFile with
        | none => exact absurd hr h1
        | some g => rfl
      have h4 : (p.jobFile.isNone && !jsTruthyString (jsTrim p.jobText)) = false := by
        rcases h2 with h2 | h2
        · cases hj : p.jobFile with
          | none => exact absurd hj h2
          | some g => simp
        · have : jsTruthyString (jsTrim p.jobText) = true := by
            by_contra hc
            rw [Bool.not_eq_true] at hc
            exact h2 ((jsTrim_eq_empty_iff _).mpr ((jsTruthyString_jsTrim _).mp hc))
          simp [this]
      simp only [WebInterface.optimizeResume, h5, h4]
      exact ⟨rfl, rfl, rfl⟩

theorem submission_validation_witness :
    (Root.pageWith none (some sampleResume) "developer").resumeFile = none ∧
    Root.optimizeResume 0 (.rejected "Failed to fetch")
        (Root.pageWith none (some sampleResume) "developer") =
      Root.alert missingResumeNotice (Root.pageWith none (some sampleResume) "developer") ∧
    jsTrim (Root.pageWith (some sampleResume) none " \t\n ").jobTextArea = "" ∧
    Root.optimizeResume 0 (.rejected "Failed to fetch")
        (Root.pageWith (some sampleResume) none " \t\n ") =
      Root.alert missingJobDescriptionNotice (Root.pageWith (some sampleResume) none " \t\n ") ∧
    jsTrim (Root.pageWith (some sampleResume) none " x ").jobTextArea ≠ "" ∧
    (Root.optimizeResume 0 (.rejected "Failed to fetch")
        (Root.pageWith (some sampleResume) none " x ")).loadingModalDisplay = "flex" ∧
    (WebInterface.optimizeResume (WebInterface.pageWith (some sampleResume) none " x ")).loadingDisplay
      = "flex" :=
  ⟨rfl,
   (submission_validation.1 0 _ (Root.pageWith none (some sampleResume) "developer")).1 rfl,
   by decide,
   (submission_validation.1 0 _ (Root.pageWith (some sampleResume) none " \t\n ")).2.1
     (by simp [Root.pageWith]) rfl (by decide),
   by decide,
   ((submission_validation.1 0 _ (Root.pageWith (some sampleResume) none " x ")).2.2
     (by simp [Root.pageWith]) (Or.inr (by decide))).1,
   ((submission_validation.2.1 (WebInterface.pageWith (some sampleResume) none " x ")).2.2
     (by simp [WebInterface.pageWith]) (Or.inr (by decide))).1⟩

/-! ## The request outcome -/

theorem initialPage_eq (stepCount : Nat) :
    Root.initialPage stepCount =
      { now := 0, nextTimerId := 0, timers := [], resumeFile := none, jobDescFile := none,
        jobTextArea := "", template := "", industry := "",
        resumeInfo := { innerHTML := "", color := "" },
        jobDescInfo := { innerHTML := "", color := "" },
        loadingModalDisplay := "none", stepCount := stepCount, activeStep := none,
        alerts := [], requests := [], scoreNumber := 0, strokeDasharrayOverPi := 108,
        strokeDashoffsetOverPi := 108, stroke := "#e74c3c", keywordsList := [],
        suggestionsList := [], resultsSectionDisplay := "none", downloadListeners := 0,
        simulateResultsCalls := 0, displayResultsCalls := 0 } := by
  unfold Root.initialPage Root.updateScoreCircle
  norm_num

theorem includesChars_head_mem (a : Char) (pat : List Char) :
    ∀ cs : List Char, includesChars cs (a :: pat) = true → a ∈ cs := by
  intro cs
  induction cs with
  | nil => intro h; simp [includesChars] at h
  | cons c cs ih =>
    intro h
    simp only [includesChars, Bool.or_eq_true] at h
    rcases h with h | h
    · simp only [List.isPrefixOf, Bool.and_eq_true, beq_iff_eq] at h
      rw [h.1]
      exact List.mem_cons_self _ _
    · exact List.mem_cons_of_mem _ (ih h)

theorem digitChar_isDigit (d : Nat) (h : d < 10) : (Nat.digitChar d).isDigit = true := by
  interval_cases d <;> rfl

theorem toDigitsCore_isDigit (fuel : Nat) :
    ∀ (n : Nat) (ds : List Char), (∀ c ∈ ds, c.isDigit = true) →
      ∀ c ∈ Nat.toDigitsCore 10 fuel n ds, c.isDigit = true := by
  induction fuel with
  | zero => intro n ds h; simpa [Nat.toDigitsCore] using h
  | succ fuel ih =>
    intro n ds h
    have hd : ∀ c ∈ Nat.digitChar (n % 10) :: ds, c.isDigit = true := by
      intro c hc
      rcases List.mem_cons.mp hc with rfl | hc
      · exact digitChar_isDigit _ (Nat.mod_lt _ (by norm_num))
      · exact h c hc
    simp only [Nat.toDigitsCore]
    split_ifs
    · exact hd
    · exact ih _ _ hd

theorem natToString_isDigit (n : Nat) : ∀ c ∈ (natToString n).data, c.isDigit = true :=
  toDigitsCore_isDigit _ _ _ (by simp)

theorem serverError_not_failed_to_fetch (status : Nat) :
    jsIncludes ("Server error: " ++ natToString status) "Failed to fetch" = false := by
  by_contra h
  rw [Bool.not_eq_false] at h
  have hm : 'F' ∈ ("Server error: " ++ natToString status).data :=
    includesChars_head_mem 'F' "ailed to fetch".data _ h
  rw [String.data_append, List.mem_append] at hm
  rcases hm with hm | hm
  · exact absurd hm (by decide)
  · exact absurd (natToString_isDigit status _ hm) (by decide)

theorem displayResults_simulateResultsCalls (result : OptimizationResult) (p : Root.Page) :
    (Root.displayResults result p).simulateResultsCalls = p.simulateResultsCalls := by
  unfold Root.displayResults Root.setupDownloadButtons Root.updateScoreCircle
  rcases result with ⟨m, ks, ss⟩
  cases ks <;> cases ss <;> simp only <;> split_ifs <;> rfl

theorem catchBlock_calls (message : String) (p : Root.Page) :
    (Root.catchBlock message p).simulateResultsCalls =
      if jsIncludes message "Failed to fetch" then p.simulateResultsCalls + 1
      else p.simulateResultsCalls := by
  unfold Root.catchBlock
  simp only
  split_ifs <;> rfl

theorem includes_failed_to_fetch :
    jsIncludes "Failed to fetch" "Failed to fetch" = true := by decide

/-- C2: what `optimizeResume` does once `fetch` has settled.  A fetch that
fails with the message `Failed to fetch` starts the simulated fallback, and a
response with a non-success status gets the error notice, which contains the
status code, with no fallback and no rendering: so far the claim holds.  The
catch block tells the two apart by looking for the text `Failed to fetch` in
the message, and that test misjudges other failures.  A response with status
200 whose body fails to decode, the decoder's message quoting the body text
`Failed to fetch`, gets the notice that the backend is not running, and
`simulateResults` is called; a fetch that fails with another message, such as
`NetworkError when attempting to fetch resource.`, gets the error notice and
no fallback. -/
theorem fallback_misjudged_by_message :
    (∀ p : Root.Page,
      Root.fetchSettled (.rejected "Failed to fetch") p =
        Root.simulateResults (Root.alert Root.demoModeNotice
          { p with loadingModalDisplay := "none" }) ∧
      (Root.fetchSettled (.rejected "Failed to fetch") p).simulateResultsCalls =
        p.simulateResultsCalls + 1 ∧
      (Root.fetchSettled (.rejected "Failed to fetch") p).displayResultsCalls =
        p.displayResultsCalls) ∧
    (∀ (status : Nat) (body : BodyOutcome) (p : Root.Page), responseOk status = false →
      Root.fetchSettled (.response status body) p =
        Root.alert (Root.errorNotice ("Server error: " ++ natToString status))
          { p with loadingModalDisplay := "none" } ∧
      (natToString status).data <:+:
        (Root.errorNotice ("Server error: " ++ natToString status)).data ∧
      (Root.fetchSettled (.response status body) p).simulateResultsCalls =
        p.simulateResultsCalls ∧
      (Root.fetchSettled (.response status body) p).displayResultsCalls =
        p.displayResultsCalls ∧
      (Root.fetchSettled (.response status body) p).timers = p.timers ∧
      (Root.fetchSettled (.response status body) p).resultsSectionDisplay =
        p.resultsSectionDisplay) ∧
    (responseOk 200 = true ∧
      Root.tryBlock misleadingBody =
        .error "Unexpected token 'F', \"Failed to fetch\" is not valid JSON" ∧
      (Root.fetchSettled misleadingBody (Root.initialPage 4)).simulateResultsCalls =
        (Root.initialPage 4).simulateResultsCalls + 1 ∧
      (Root.fetchSettled misleadingBody (Root.initialPage 4)).alerts = [Root.demoModeNotice] ∧
      (Root.fetchSettled misleadingBody (Root.initialPage 4)).timers =
        [{ id := 0, due := 3000, period := none, task := .mockResults }]) ∧
    (∀ p : Root.Page,
      Root.fetchSettled (.rejected "NetworkError when attempting to fetch resource.") p =
        Root.alert (Root.errorNotice "NetworkError when attempting to fetch resource.")
          { p with loadingModalDisplay := "none" } ∧
      (Root.fetchSettled
        (.rejected "NetworkError when attempting to fetch resource.") p).simulateResultsCalls =
        p.simulateResultsCalls) := by
  refine ⟨?_, ?_, ?_, ?_⟩
  · intro p
    have hq : Root.fetchSettled (.rejected "Failed to fetch") p =
        Root.simulateResults (Root.alert Root.demoModeNotice
          { p with loadingModalDisplay := "none" }) := by
      simp only [Root.fetchSettled, Root.tryBlock, Root.catchBlock, includes_failed_to_fetch]
      rfl
    refine ⟨hq, ?_⟩
    rw [hq]
    exact ⟨rfl, rfl⟩
  · intro status body p hs
    have ht : Root.tryBlock (.response status body) =
        .error ("Server error: " ++ natToString status) := by
      simp [Root.tryBlock, hs]
    have hq : Root.fetchSettled (.response status body) p =
        Root.alert (Root.errorNotice ("Server error: " ++ natToString status))
          { p with loadingModalDisplay := "none" } := by
      unfold Root.fetchSettled
      rw [ht]
      simp only [Root.catchBlock, serverError_not_failed_to_fetch]
      rfl
    refine ⟨hq, ?_, ?_⟩
    · unfold Root.errorNotice
      simp only [String.data_append]
      exact ⟨"Error: ".data ++ "Server error: ".data,
        ". Please check if the backend server is running.".data, by simp⟩
    · rw [hq]
      exact ⟨rfl, rfl, rfl, rfl⟩
  · have hi : jsIncludes "Unexpected token 'F', \"Failed to fetch\" is not valid JSON"
        "Failed to fetch" = true := by decide
    have ht : Root.tryBlock misleadingBody =
        .error "Unexpected token 'F', \"Failed to fetch\" is not valid JSON" := by
      simp [Root.tryBlock, misleadingBody, responseOk]
    have hq : Root.fetchSettled misleadingBody (Root.initialPage 4) =
        Root.simulateResults (Root.alert Root.demoModeNotice
          { Root.initialPage 4 with loadingModalDisplay := "none" }) := by
      unfold Root.fetchSettled
      rw [ht]
      simp only [Root.catchBlock, hi]
      rfl
    refine ⟨by decide, ht, ?_⟩
    rw [hq]
    refine ⟨rfl, ?_, ?_⟩
    · simp [Root.simulateResults, Root.setTimeout, Root.alert, initialPage_eq]
    · simp [Root.simulateResults, Root.setTimeout, Root.alert, initialPage_eq]
  · intro p
    have hi : jsIncludes "NetworkError when attempting to fetch resource."
        "Failed to fetch" = false := by decide
    have hq : Root.fetchSettled (.rejected "NetworkError when attempting to fetch resource.") p =
        Root.alert (Root.errorNotice "NetworkError when attempting to fetch resource.")
          { p with loadingModalDisplay := "none" } := by
      simp only [Root.fetchSettled, Root.tryBlock, Root.catchBlock, hi]
      rfl
    refine ⟨hq, ?_⟩
    rw [hq]
    rfl

theorem fallback_misjudged_by_message_witness :
    responseOk 500 = false ∧
    Root.fetchSettled (.response 500 (.undecodable "")) (Root.initialPage 4) =
      Root.alert (Root.errorNotice ("Server error: " ++ natToString 500))
        { Root.initialPage 4 with loadingModalDisplay := "none" } ∧
    (Root.fetchSettled (.response 500 (.undecodable "")) (Root.initialPage 4)).simulateResultsCalls
      = (Root.initialPage 4).simulateResultsCalls :=
  ⟨by decide,
   (fallback_misjudged_by_message.2.1 500 (.undecodable "") (Root.initialPage 4)
     (by decide)).1,
   (fallback_misjudged_by_message.2.1 500 (.undecodable "") (Root.initialPage 4)
     (by decide)).2.2.1⟩

/-! ## The simulated match score -/

/-- C3: for a random draw `0 ≤ r < 1` the simulated score
`floor(r * 30) + 65` lies between 65 and 94, every integer from 65 to 94 is
produced by some draw, and 95 is produced by none; the root variant's mock
record and the simpler variant's score display both carry this value. -/
theorem simulated_score_range {α : Type} [LinearOrderedField α] [FloorRing α] :
    (∀ r : α, 0 ≤ r → r < 1 → 65 ≤ simulatedScore r ∧ simulatedScore r ≤ 94) ∧
    (∀ k : Int, 65 ≤ k → k ≤ 94 → ∃ r : α, 0 ≤ r ∧ r < 1 ∧ simulatedScore r = k) ∧
    (∀ r : α, 0 ≤ r → r < 1 → simulatedScore r ≠ 95) ∧
    (∀ r : ℚ, (Root.mockResult r).matchScore = some ((simulatedScore r : Int) : ℚ)) ∧
    (∀ (r : ℚ) (shuffled : List String) (p : WebInterface.Page),
      (WebInterface.showDemoResults r shuffled p).matchScore = toString (simulatedScore r) ++ "%") := by
  have key : ∀ r : α, 0 ≤ r → r < 1 → 65 ≤ simulatedScore r ∧ simulatedScore r ≤ 94 := by
    intro r h0 h1
    unfold simulatedScore
    have hlo : (0 : Int) ≤ ⌊r * 30⌋ := Int.floor_nonneg.mpr (by positivity)
    have hhi : ⌊r * 30⌋ < (30 : Int) := by
      rw [Int.floor_lt]
      push_cast
      linarith
    constructor <;> omega
  refine ⟨key, ?_, ?_, fun _ => rfl, fun _ _ _ => rfl⟩
  · intro k hk1 hk2
    refine ⟨((k - 65 : Int) : α) / 30, ?_, ?_, ?_⟩
    · apply div_nonneg
      · exact_mod_cast (by omega : (0 : Int) ≤ k - 65)
      · norm_num
    · rw [div_lt_one (by norm_num)]
      exact_mod_cast (by omega : k - 65 < (30 : Int))
    · unfold simulatedScore
      rw [div_mul_cancel₀ _ (by norm_num : (30 : α) ≠ 0), Int.floor_intCast]
      omega
  · intro r h0 h1 h
    have := (key r h0 h1).2
    omega

theorem simulated_score_range_witness :
    (0 : ℚ) ≤ 1 / 2 ∧ (1 / 2 : ℚ) < 1 ∧
    65 ≤ simulatedScore (1 / 2 : ℚ) ∧ simulatedScore (1 / 2 : ℚ) ≤ 94 ∧
    simulatedScore (1 / 2 : ℚ) ≠ 95 :=
  ⟨by norm_num, by norm_num,
   (simulated_score_range.1 (1 / 2 : ℚ) (by norm_num) (by norm_num)).1,
   (simulated_score_range.1 (1 / 2 : ℚ) (by norm_num) (by norm_num)).2,
   simulated_score_range.2.2.1 (1 / 2 : ℚ) (by norm_num) (by norm_num)⟩

/-! ## Rendering a result -/

theorem updateScoreCircle_scoreNumber (score : ℚ) (p : Root.Page) :
    (Root.updateScoreCircle score p).scoreNumber = score := by
  unfold Root.updateScoreCircle
  simp only
  split_ifs <;> rfl

theorem updateScoreCircle_offset (score : ℚ) (p : Root.Page) :
    (Root.updateScoreCircle score p).strokeDashoffsetOverPi = 108 - score / 100 * 108 := by
  unfold Root.updateScoreCircle
  simp only
  split_ifs <;> norm_num

theorem updateScoreCircle_keywordsList (score : ℚ) (p : Root.Page) :
    (Root.updateScoreCircle score p).keywordsList = p.keywordsList := by
  unfold Root.updateScoreCircle
  simp only
  split_ifs <;> rfl

theorem updateScoreCircle_suggestionsList (score : ℚ) (p : Root.Page) :
    (Root.updateScoreCircle score p).suggestionsList = p.suggestionsList := by
  unfold Root.updateScoreCircle
  simp only
  split_ifs <;> rfl

theorem displayResults_scoreNumber (result : OptimizationResult) (p : Root.Page) :
    (Root.displayResults result p).scoreNumber = Root.scoreOrDefault result.matchScore := by
  have h := updateScoreCircle_scoreNumber (Root.scoreOrDefault result.matchScore)
    { p with displayResultsCalls := p.displayResultsCalls + 1 }
  unfold Root.displayResults Root.setupDownloadButtons
  rcases result with ⟨m, ks, ss⟩
  cases ks <;> cases ss <;> simp only <;> (try split_ifs) <;> exact h

theorem displayResults_offset (result : OptimizationResult) (p : Root.Page) :
    (Root.displayResults result p).strokeDashoffsetOverPi =
      108 - Root.scoreOrDefault result.matchScore / 100 * 108 := by
  have h := updateScoreCircle_offset (Root.scoreOrDefault result.matchScore)
    { p with displayResultsCalls := p.displayResultsCalls + 1 }
  unfold Root.displayResults Root.setupDownloadButtons
  rcases result with ⟨m, ks, ss⟩
  cases ks <;> cases ss <;> simp only <;> (try split_ifs) <;> exact h

/-- C4 (as the code has it): the number in the score text and in the circle
offset is 78 when `matchScore` is absent, and for a `matchScore` other than
zero it is `matchScore` itself, with no clamping. -/
theorem displayed_score_unclamped (result : OptimizationResult) (p : Root.Page) :
    (Root.displayResults result p).strokeDashoffsetOverPi =
      108 - (Root.displayResults result p).scoreNumber / 100 * 108 ∧
    (result.matchScore = none → (Root.displayResults result p).scoreNumber = 78) ∧
    (∀ s : ℚ, result.matchScore = some s → s ≠ 0 →
      (Root.displayResults result p).scoreNumber = s) := by
  rw [displayResults_offset, displayResults_scoreNumber]
  refine ⟨rfl, ?_, ?_⟩
  · intro h
    rw [h]
    rfl
  · intro s h hs
    rw [h]
    simp [Root.scoreOrDefault, hs]

theorem displayed_score_unclamped_witness :
    sampleResult.matchScore = some 150 ∧ (150 : ℚ) ≠ 0 ∧
    (Root.displayResults sampleResult Root.usedPage).scoreNumber = 150 :=
  ⟨rfl, by norm_num,
   (displayed_score_unclamped sampleResult Root.usedPage).2.2 150 rfl (by norm_num)⟩

/-- C4, counterexample: a `matchScore` of 150 is shown as 150, not as the
clamped value 100. -/
theorem displayed_score_not_clamped :
    (Root.displayResults sampleResult Root.usedPage).scoreNumber = 150 ∧
    clampedScoreRef sampleResult.matchScore = 100 ∧
    (Root.displayResults sampleResult Root.usedPage).scoreNumber ≠
      clampedScoreRef sampleResult.matchScore := by
  have h1 : (Root.displayResults sampleResult Root.usedPage).scoreNumber = 150 := by
    rw [displayResults_scoreNumber]
    simp [sampleResult, Root.scoreOrDefault]
  have h2 : clampedScoreRef sampleResult.matchScore = 100 := by
    norm_num [sampleResult, clampedScoreRef]
  refine ⟨h1, h2, ?_⟩
  rw [h1, h2]
  norm_num

theorem displayResults_keywordsList (result : OptimizationResult) (p : Root.Page) :
    (Root.displayResults result p).keywordsList =
      match result.keywords with
      | some ks => if ks.length > 0 then ks.take 8 else p.keywordsList
      | none => p.keywordsList := by
  have h := updateScoreCircle_keywordsList (Root.scoreOrDefault result.matchScore)
    { p with displayResultsCalls := p.displayResultsCalls + 1 }
  unfold Root.displayResults Root.setupDownloadButtons
  rcases result with ⟨m, ks, ss⟩
  cases ks <;> cases ss <;> simp only <;> (try split_ifs) <;> first | exact h | rfl

theorem displayResults_suggestionsList (result : OptimizationResult) (p : Root.Page) :
    (Root.displayResults result p).suggestionsList =
      match result.suggestions with
      | some ss => if ss.length > 0 then ss.take 5 else p.suggestionsList
      | none => p.suggestionsList := by
  have h := updateScoreCircle_suggestionsList (Root.scoreOrDefault result.matchScore)
    { p with displayResultsCalls := p.displayResultsCalls + 1 }
  unfold Root.displayResults Root.setupDownloadButtons
  rcases result with ⟨m, ks, ss⟩
  cases ks <;> cases ss <;> simp only <;> (try split_ifs) <;> first | exact h | rfl

/-- C5 (as the code has it): after `displayResults`, a present and non-empty
`keywords` array leaves exactly its first `min 8 n` entries, in order, in the
keyword display, and a present and non-empty `suggestions` array leaves exactly
its first `min 5 m` entries in the suggestion display; an absent or empty
array leaves the display with the content it had before. -/
theorem display_lists_truncated_or_kept (result : OptimizationResult) (p : Root.Page) :
    (∀ ks : List String, result.keywords = some ks → ks ≠ [] →
      (Root.displayResults result p).keywordsList = ks.take 8 ∧
      (Root.displayResults result p).keywordsList.length = min 8 ks.length ∧
      (Root.displayResults result p).keywordsList <+: ks) ∧
    (∀ ss : List String, result.suggestions = some ss → ss ≠ [] →
      (Root.displayResults result p).suggestionsList = ss.take 5 ∧
      (Root.displayResults result p).suggestionsList.length = min 5 ss.length ∧
      (Root.displayResults result p).suggestionsList <+: ss) ∧
    (result.keywords = none ∨ result.keywords = some [] →
      (Root.displayResults result p).keywordsList = p.keywordsList) ∧
    (result.suggestions = none ∨ result.suggestions = some [] →
      (Root.displayResults result p).suggestionsList = p.suggestionsList) := by
  rw [displayResults_keywordsList, displayResults_suggestionsList]
  refine ⟨?_, ?_, ?_, ?_⟩
  · intro ks h hne
    have hpos : ks.length > 0 := List.length_pos.mpr hne
    simp only [h, hpos, if_true, true_and]
    exact ⟨List.length_take _ _, List.take_prefix _ _⟩
  · intro ss h hne
    have hpos : ss.length > 0 := List.length_pos.mpr hne
    simp only [h, hpos, if_true, true_and]
    exact ⟨List.length_take _ _, List.take_prefix _ _⟩
  · rintro (h | h) <;> simp [h]
  · rintro (h | h) <;> simp [h]

theorem display_lists_truncated_or_kept_witness :
    sampleResult.keywords =
      some ["k1", "k2", "k3", "k4", "k5", "k6", "k7", "k8", "k9", "k10"] ∧
    (Root.displayResults sampleResult Root.usedPage).keywordsList =
      ["k1", "k2", "k3", "k4", "k5", "k6", "k7", "k8"] ∧
    (Root.displayResults { sampleResult with keywords := none } Root.usedPage).keywordsList =
      ["old keyword"] :=
  ⟨rfl,
   ((display_lists_truncated_or_kept sampleResult Root.usedPage).1 _ rfl (by simp)).1,
   (display_lists_truncated_or_kept { sampleResult with keywords := none } Root.usedPage).2.2.1
     (Or.inl rfl)⟩

/-- C5, counterexample: on a page that already shows a keyword and a
suggestion, a record without `keywords` and `suggestions` leaves both displays
as they were, not empty. -/
theorem display_lists_not_emptied :
    (Root.displayResults { matchScore := some 80, keywords := none, suggestions := none }
        Root.usedPage).keywordsList = ["old keyword"] ∧
    (Root.displayResults { matchScore := some 80, keywords := none, suggestions := none }
        Root.usedPage).suggestionsList = ["old advice"] ∧
    (Root.displayResults { matchScore := some 80, keywords := some [], suggestions := some [] }
        Root.usedPage).keywordsList ≠ [] := by
  rw [displayResults_keywordsList, displayResults_suggestionsList, displayResults_keywordsList]
  have hk : Root.usedPage.keywordsList = ["old keyword"] := rfl
  have hs : Root.usedPage.suggestionsList = ["old advice"] := rfl
  refine ⟨hk, hs, ?_⟩
  simp only [List.length_nil, gt_iff_lt, lt_self_iff_false, if_false]
  rw [hk]
  simp

/-! ## Colour bands -/

/-- C6: `updateScoreCircle` assigns exactly one of three colours: green
`#2ecc71` exactly when `score ≥ 80`, blue `#3498db` exactly when
`60 ≤ score < 80`, red `#e74c3c` exactly when `score < 60`; so 80 is green,
79 and 60 are blue, 59 is red. -/
theorem score_colour_bands :
    (∀ (score : ℚ) (p : Root.Page),
      ((Root.updateScoreCircle score p).stroke = "#2ecc71" ↔ score ≥ 80) ∧
      ((Root.updateScoreCircle score p).stroke = "#3498db" ↔ 60 ≤ score ∧ score < 80) ∧
      ((Root.updateScoreCircle score p).stroke = "#e74c3c" ↔ score < 60) ∧
      ((Root.updateScoreCircle score p).stroke = "#2ecc71" ∨
        (Root.updateScoreCircle score p).stroke = "#3498db" ∨
        (Root.updateScoreCircle score p).stroke = "#e74c3c")) ∧
    (∀ p : Root.Page,
      (Root.updateScoreCircle 80 p).stroke = "#2ecc71" ∧
      (Root.updateScoreCircle 79 p).stroke = "#3498db" ∧
      (Root.updateScoreCircle 60 p).stroke = "#3498db" ∧
      (Root.updateScoreCircle 59 p).stroke = "#e74c3c") := by
  have main : ∀ (score : ℚ) (p : Root.Page),
      ((Root.updateScoreCircle score p).stroke = "#2ecc71" ↔ score ≥ 80) ∧
      ((Root.updateScoreCircle score p).stroke = "#3498db" ↔ 60 ≤ score ∧ score < 80) ∧
      ((Root.updateScoreCircle score p).stroke = "#e74c3c" ↔ score < 60) ∧
      ((Root.updateScoreCircle score p).stroke = "#2ecc71" ∨
        (Root.updateScoreCircle score p).stroke = "#3498db" ∨
        (Root.updateScoreCircle score p).stroke = "#e74c3c") := by
    intro score p
    have e1 : ("#3498db" : String) ≠ "#2ecc71" := by decide
    have e2 : ("#e74c3c" : String) ≠ "#2ecc71" := by decide
    have e3 : ("#2ecc71" : String) ≠ "#3498db" := by decide
    have e4 : ("#e74c3c" : String) ≠ "#3498db" := by decide
    have e5 : ("#2ecc71" : String) ≠ "#e74c3c" := by decide
    have e6 : ("#3498db" : String) ≠ "#e74c3c" := by decide
    unfold Root.updateScoreCircle
    simp only
    by_cases h80 : score ≥ 80
    · rw [if_pos h80]
      refine ⟨⟨fun _ => h80, fun _ => rfl⟩, ⟨fun h => absurd h e3, fun h => ?_⟩,
        ⟨fun h => absurd h e5, fun h => ?_⟩, Or.inl rfl⟩
      · exact absurd h.2 (not_lt.mpr h80)
      · exact absurd h (not_lt.mpr (le_trans (by norm_num) h80))
    · rw [if_neg h80]
      by_cases h60 : score ≥ 60
      · rw [if_pos h60]
        refine ⟨⟨fun h => absurd h e1, fun h => absurd h h80⟩,
          ⟨fun _ => ⟨h60, not_le.mp h80⟩, fun _ => rfl⟩,
          ⟨fun h => absurd h e6, fun h => absurd h (not_lt.mpr h60)⟩, Or.inr (Or.inl rfl)⟩
      · rw [if_neg h60]
        refine ⟨⟨fun h => absurd h e2, fun h => absurd h h80⟩,
          ⟨fun h => absurd h e4, fun h => absurd h.1 h60⟩,
          ⟨fun _ => not_le.mp h60, fun _ => rfl⟩, Or.inr (Or.inr rfl)⟩
  refine ⟨main, fun p => ⟨?_, ?_, ?_, ?_⟩⟩
  · exact (main 80 p).1.mpr (by norm_num)
  · exact (main 79 p).2.1.mpr (by norm_num)
  · exact (main 60 p).2.1.mpr (by norm_num)
  · exact (main 59 p).2.2.1.mpr (by norm_num)

/-! ## File intake -/

theorem successInfo_ne_resumeRejected (f : File) :
    Root.resumeRejectedInfo ≠ Root.successInfo f := by
  intro h
  have hc : ("#e74c3c" : String) = "#27ae60" := congrArg Root.SlotInfo.color h
  exact absurd hc (by decide)

theorem successInfo_ne_jobDescRejected (f : File) :
    Root.jobDescRejectedInfo ≠ Root.successInfo f := by
  intro h
  have hc : ("#e74c3c" : String) = "#27ae60" := congrArg Root.SlotInfo.color h
  exact absurd hc (by decide)

/-- C7: the two drop handlers mark a slot valid only for a file of the slot's
accepted set, but the two `change` handlers mark it valid for every picked
file: the image `photo.png` of type `image/png`, outside both accepted sets, is
rejected when dropped and shown with the success status when picked. -/
theorem slot_validity_only_on_drop :
    (∀ (f : File) (p : Root.Page),
      (Root.handleResumeDrop (some f) p).resumeInfo = Root.successInfo f →
        resumeAcceptedRef f = true) ∧
    (∀ (f : File) (readDelay : Nat) (p : Root.Page),
      (Root.handleJobDescDrop (some f) readDelay p).jobDescInfo = Root.successInfo f →
        jobDescAcceptedRef f = true) ∧
    resumeAcceptedRef samplePhoto = false ∧
    jobDescAcceptedRef samplePhoto = false ∧
    (∀ p : Root.Page,
      (Root.handleResumeDrop (some samplePhoto) p).resumeInfo = Root.resumeRejectedInfo ∧
      (Root.handleJobDescDrop (some samplePhoto) 0 p).jobDescInfo = Root.jobDescRejectedInfo ∧
      (Root.resumeFileChange (some samplePhoto) p).resumeInfo = Root.successInfo samplePhoto ∧
      (Root.resumeFileChange (some samplePhoto) p).resumeFile = some samplePhoto ∧
      (Root.jobDescFileChange (some samplePhoto) 0 p).jobDescInfo =
        Root.successInfo samplePhoto ∧
      (Root.jobDescFileChange (some samplePhoto) 0 p).jobDescFile = some samplePhoto) := by
  have hr : resumeAcceptedRef samplePhoto = false := by decide
  have hj : jobDescAcceptedRef samplePhoto = false := by decide
  refine ⟨?_, ?_, hr, hj, ?_⟩
  · intro f p h
    unfold Root.handleResumeDrop at h
    by_cases hc : resumeAcceptedRef f = true
    · exact hc
    · exfalso
      unfold resumeAcceptedRef at hc
      simp only [hc] at h
      exact successInfo_ne_resumeRejected f h
  · intro f readDelay p h
    unfold Root.handleJobDescDrop at h
    by_cases hc : jobDescAcceptedRef f = true
    · exact hc
    · exfalso
      unfold jobDescAcceptedRef at hc
      simp only [hc] at h
      exact successInfo_ne_jobDescRejected f h
  · intro p
    unfold resumeAcceptedRef at hr
    unfold jobDescAcceptedRef at hj
    have ht : (decide (samplePhoto.type = "text/plain") || jsEndsWith samplePhoto.name ".txt")
        = false := by decide
    refine ⟨?_, ?_, rfl, rfl, ?_, ?_⟩
    · simp only [Root.handleResumeDrop, hr]
      rfl
    · simp only [Root.handleJobDescDrop, hj]
      rfl
    · simp only [Root.jobDescFileChange, ht]
      rfl
    · simp only [Root.jobDescFileChange, ht]
      rfl

theorem slot_validity_only_on_drop_witness :
    (Root.handleResumeDrop (some sampleResume) (Root.initialPage 4)).resumeInfo =
      Root.successInfo sampleResume ∧
    resumeAcceptedRef sampleResume = true :=
  ⟨by simp [Root.handleResumeDrop, sampleResume],
   slot_validity_only_on_drop.1 sampleResume (Root.initialPage 4)
     (by simp [Root.handleResumeDrop, sampleResume])⟩

/-! ## The step ticker -/

theorem displayResults_eq (result : OptimizationResult) (p : Root.Page) :
    Root.displayResults result p =
      { p with
        displayResultsCalls := p.displayResultsCalls + 1
        strokeDasharrayOverPi := 108
        strokeDashoffsetOverPi := 108 - Root.scoreOrDefault result.matchScore / 100 * 108
        scoreNumber := Root.scoreOrDefault result.matchScore
        stroke := Root.strokeFor (Root.scoreOrDefault result.matchScore)
        keywordsList := Root.keywordsAfter result.keywords p.keywordsList
        suggestionsList := Root.suggestionsAfter result.suggestions p.suggestionsList
        downloadListeners := p.downloadListeners + 1
        resultsSectionDisplay := "block" } := by
  unfold Root.displayResults Root.setupDownloadButtons Root.updateScoreCircle Root.strokeFor
    Root.keywordsAfter Root.suggestionsAfter
  rcases result with ⟨m, ks, ss⟩
  cases ks <;> cases ss <;> simp only <;> split_ifs <;> norm_num

theorem submittedPage_eq (outcome : FetchOutcome) :
    Root.submittedPage outcome =
      { Root.initialPage 4 with
        resumeFile := some sampleResume
        jobTextArea := "developer"
        loadingModalDisplay := "flex"
        nextTimerId := 3
        timers := [
          { id := 0, due := 1000, period := some 1000, task := .stepTick 0 },
          { id := 1, due := 10000, period := none, task := .clearStepInterval 0 },
          { id := 2, due := 0, period := none, task := .fetchSettled outcome }]
        requests := [[("resume", .file sampleResume), ("jobDescriptionText", .text "developer"),
          ("template", .text ""), ("industry", .text "")]] } := by
  have ht : jsTrim "developer" = "developer" := by decide
  have hs : jsTruthyString "developer" = true := by decide
  simp [Root.submittedPage, Root.optimizeResume, Root.pageWith, initialPage_eq, ht, hs,
    Root.simulateLoadingSteps, Root.setInterval, Root.setTimeout]

theorem fallback_state_at_3000 (r : ℚ) :
    Root.runUntil r 8 3000 (Root.submittedPage (.rejected "Failed to fetch")) =
      { Root.displayResults (Root.mockResult r)
          { Root.initialPage 4 with
            resumeFile := some sampleResume
            jobTextArea := "developer"
            requests := [[("resume", .file sampleResume),
              ("jobDescriptionText", .text "developer"),
              ("template", .text ""), ("industry", .text "")]]
            alerts := [Root.demoModeNotice]
            simulateResultsCalls := 1
            activeStep := some 2 } with
        now := 3000
        nextTimerId := 4
        timers := [
          { id := 0, due := 4000, period := some 1000, task := .stepTick 3 },
          { id := 1, due := 10000, period := none, task := .clearStepInterval 0 }] } := by
  rw [submittedPage_eq]
  simp [Root.runUntil, Root.nextDue, Root.fire, Root.runTask, Root.fetchSettled, Root.tryBlock,
    Root.catchBlock, includes_failed_to_fetch, Root.simulateResults, Root.alert, Root.setTimeout,
    displayResults_eq, initialPage_eq]

theorem fallback_ticker_until_10000 (r : ℚ) :
    Root.tickerActive
        (Root.runUntil r 20 9999 (Root.submittedPage (.rejected "Failed to fetch"))) = true ∧
    (Root.runUntil r 20 9999
        (Root.submittedPage (.rejected "Failed to fetch"))).loadingModalDisplay = "none" ∧
    (Root.runUntil r 20 9999
        (Root.submittedPage (.rejected "Failed to fetch"))).activeStep = some 0 ∧
    Root.tickerActive
        (Root.runUntil r 20 10000 (Root.submittedPage (.rejected "Failed to fetch"))) = false := by
  rw [submittedPage_eq]
  simp [Root.runUntil, Root.nextDue, Root.fire, Root.runTask, Root.fetchSettled, Root.tryBlock,
    Root.catchBlock, includes_failed_to_fetch, Root.simulateResults, Root.alert, Root.setTimeout,
    displayResults_eq, initialPage_eq, Root.tickerActive, Root.clearInterval]

theorem success_state_at_settlement (r : ℚ) :
    Root.tickerActive
        (Root.runUntil r 4 0 (Root.submittedPage (.response 200 (.decoded sampleResult)))) = true ∧
    (Root.runUntil r 4 0
        (Root.submittedPage (.response 200 (.decoded sampleResult)))).loadingModalDisplay
      = "none" ∧
    (Root.runUntil r 4 0
        (Root.submittedPage (.response 200 (.decoded sampleResult)))).displayResultsCalls = 1 := by
  rw [submittedPage_eq]
  simp [Root.runUntil, Root.nextDue, Root.fire, Root.runTask, Root.fetchSettled, Root.tryBlock,
    responseOk, displayResults_eq, initialPage_eq, Root.tickerActive]

theorem error_state_at_settlement (r : ℚ) :
    Root.tickerActive
        (Root.runUntil r 4 0 (Root.submittedPage (.response 500 (.undecodable "")))) = true ∧
    (Root.runUntil r 4 0
        (Root.submittedPage (.response 500 (.undecodable "")))).loadingModalDisplay = "none" ∧
    (Root.runUntil r 4 0
        (Root.submittedPage (.response 500 (.undecodable "")))).alerts =
      [Root.errorNotice ("Server error: " ++ natToString 500)] := by
  rw [submittedPage_eq]
  simp [Root.runUntil, Root.nextDue, Root.fire, Root.runTask, Root.fetchSettled, Root.tryBlock,
    responseOk, Root.catchBlock, serverError_not_failed_to_fetch, Root.alert,
    initialPage_eq, Root.tickerActive]

/-- C8: the interval started by `simulateLoadingSteps` is cleared only by its
own 10000 ms timer, not when loading ends.  With a request that settles at
once, the loading modal is hidden while the ticker is still active on each
path: on success and on a hard error at the moment of settlement, and on the
simulated fallback both when the result is rendered at 3000 ms and as late as
9999 ms; the ticker stops at 10000 ms. -/
theorem ticker_outlives_loading (r : ℚ) :
    ((Root.runUntil r 8 3000
        (Root.submittedPage (.rejected "Failed to fetch"))).now = 3000 ∧
      (Root.runUntil r 8 3000
        (Root.submittedPage (.rejected "Failed to fetch"))).loadingModalDisplay = "none" ∧
      (Root.runUntil r 8 3000
        (Root.submittedPage (.rejected "Failed to fetch"))).displayResultsCalls = 1 ∧
      (Root.runUntil r 8 3000
        (Root.submittedPage (.rejected "Failed to fetch"))).resultsSectionDisplay = "block" ∧
      Root.tickerActive (Root.runUntil r 8 3000
        (Root.submittedPage (.rejected "Failed to fetch"))) = true) ∧
    (Root.tickerActive
        (Root.runUntil r 20 9999 (Root.submittedPage (.rejected "Failed to fetch"))) = true ∧
      Root.tickerActive
        (Root.runUntil r 20 10000 (Root.submittedPage (.rejected "Failed to fetch"))) = false) ∧
    ((Root.runUntil r 4 0
        (Root.submittedPage (.response 200 (.decoded sampleResult)))).loadingModalDisplay
        = "none" ∧
      Root.tickerActive (Root.runUntil r 4 0
        (Root.submittedPage (.response 200 (.decoded sampleResult)))) = true) ∧
    ((Root.runUntil r 4 0
        (Root.submittedPage (.response 500 (.undecodable "")))).loadingModalDisplay = "none" ∧
      Root.tickerActive (Root.runUntil r 4 0
        (Root.submittedPage (.response 500 (.undecodable "")))) = true) := by
  refine ⟨?_, ⟨(fallback_ticker_until_10000 r).1, (fallback_ticker_until_10000 r).2.2.2⟩,
    ⟨(success_state_at_settlement r).2.1, (success_state_at_settlement r).1⟩,
    ⟨(error_state_at_settlement r).2.1, (error_state_at_settlement r).1⟩⟩
  rw [fallback_state_at_3000]
  simp [displayResults_eq, initialPage_eq, Root.tickerActive]

/-! ## Decimal digits -/

theorem toDigitsCore_append (fuel : Nat) :
    ∀ (n : Nat) (ds : List Char),
      Nat.toDigitsCore 10 fuel n ds = Nat.toDigitsCore 10 fuel n [] ++ ds := by
  induction fuel with
  | zero => intro n ds; simp [Nat.toDigitsCore]
  | succ fuel ih =>
    intro n ds
    simp only [Nat.toDigitsCore]
    split_ifs
    · simp
    · rw [ih _ (Nat.digitChar (n % 10) :: ds), ih _ [Nat.digitChar (n % 10)]]
      simp

theorem toDigitsCore_fuel (fuel : Nat) :
    ∀ (n fuel2 : Nat), n < fuel → n < fuel2 →
      Nat.toDigitsCore 10 fuel n [] = Nat.toDigitsCore 10 fuel2 n [] := by
  induction fuel with
  | zero => intro n fuel2 h; omega
  | succ fuel ih =>
    intro n fuel2 h1 h2
    obtain ⟨k, rfl⟩ : ∃ k, fuel2 = k + 1 := ⟨fuel2 - 1, by omega⟩
    simp only [Nat.toDigitsCore]
    split_ifs with h0
    · rfl
    · have hlt : n / 10 < n := Nat.div_lt_self (by omega) (by norm_num)
      rw [toDigitsCore_append fuel, toDigitsCore_append k,
        ih (n / 10) k (by omega) (by omega)]

theorem toDigits_small (n : Nat) (h : n < 10) : Nat.toDigits 10 n = [Nat.digitChar n] := by
  have h0 : n / 10 = 0 := Nat.div_eq_of_lt h
  simp [Nat.toDigits, Nat.toDigitsCore, h0, Nat.mod_eq_of_lt h]

theorem toDigits_step (n : Nat) (h : 10 ≤ n) :
    Nat.toDigits 10 n = Nat.toDigits 10 (n / 10) ++ [Nat.digitChar (n % 10)] := by
  have h0 : n / 10 ≠ 0 := by omega
  have hlt : n / 10 < n := Nat.div_lt_self (by omega) (by norm_num)
  have e : Nat.toDigitsCore 10 (n + 1) n [] =
      Nat.toDigitsCore 10 n (n / 10) [Nat.digitChar (n % 10)] := by
    simp only [Nat.toDigitsCore, h0, if_false]
  unfold Nat.toDigits
  rw [e, toDigitsCore_append, toDigitsCore_fuel n (n / 10) (n / 10 + 1) hlt (by omega)]

theorem toDigits_ne_nil (n : Nat) : Nat.toDigits 10 n ≠ [] := by
  by_cases h : n < 10
  · rw [toDigits_small n h]; simp
  · rw [toDigits_step n (by omega)]; simp

theorem toDigits_isDigit (n : Nat) : ∀ c ∈ Nat.toDigits 10 n, c.isDigit = true :=
  toDigitsCore_isDigit _ _ _ (by simp)

theorem digitValue_digitChar (d : Nat) (h : d < 10) : digitValue (Nat.digitChar d) = d := by
  interval_cases d <;> rfl

theorem digitChar_ne_point (d : Nat) (h : d < 10) : Nat.digitChar d ≠ '.' := by
  interval_cases d <;> decide

theorem digitChar_eq_zero_iff (d : Nat) (h : d < 10) : Nat.digitChar d = '0' ↔ d = 0 := by
  interval_cases d <;> decide

theorem parseDigits_append_singleton (cs : List Char) (c : Char) :
    parseDigits (cs ++ [c]) = 10 * parseDigits cs + digitValue c := by
  simp [parseDigits, List.foldl_append]

theorem parseDigits_toDigits (n : Nat) : parseDigits (Nat.toDigits 10 n) = n := by
  induction n using Nat.strong_induction_on with
  | _ n ih =>
    by_cases h : n < 10
    · rw [toDigits_small n h]
      simp [parseDigits, digitValue_digitChar n h]
    · rw [toDigits_step n (by omega), parseDigits_append_singleton,
        ih (n / 10) (Nat.div_lt_self (by omega) (by norm_num)),
        digitValue_digitChar _ (Nat.mod_lt _ (by norm_num))]
      omega

/-! ## The number pipeline of `formatBytes` -/

theorem takeWhile_append_stop (p : Char → Bool) (a : Char) (r : List Char) (ha : p a = false) :
    ∀ ds : List Char, (∀ c ∈ ds, p c = true) →
      (ds ++ a :: r).takeWhile p = ds ∧ (ds ++ a :: r).dropWhile p = a :: r := by
  intro ds
  induction ds with
  | nil => intro _; simp [List.takeWhile, List.dropWhile, ha]
  | cons d ds ih =>
    intro h
    have hd : p d = true := h d (List.mem_cons_self _ _)
    have := ih (fun c hc => h c (List.mem_cons_of_mem _ hc))
    simp [List.takeWhile, List.dropWhile, hd, this.1, this.2]

theorem toFixed2Chars_eq (x : ℚ) :
    toFixed2Chars x = twoDecimalsRef ⌊x * 100 + 1 / 2⌋₊ := by
  unfold toFixed2Chars twoDecimalsRef
  generalize ⌊x * 100 + 1 / 2⌋₊ = h
  simp only
  by_cases h10 : h < 10
  · have e0 : h / 100 = 0 := by omega
    have e1 : h / 10 % 10 = 0 := by omega
    have e2 : h % 10 = h := by omega
    rw [toDigits_small h h10, e0, e1, e2, toDigits_small 0 (by norm_num)]
    simp [show Nat.digitChar 0 = '0' from rfl]
  · by_cases h100 : h < 100
    · have e0 : h / 100 = 0 := by omega
      have e1 : h / 10 % 10 = h / 10 := by omega
      rw [toDigits_step h (by omega), toDigits_small (h / 10) (by omega), e0, e1,
        toDigits_small 0 (by norm_num)]
      simp [show Nat.digitChar 0 = '0' from rfl]
    · have e0 : h / 10 / 10 = h / 100 := by omega
      have hne := toDigits_ne_nil (h / 100)
      have hlen : 0 < (Nat.toDigits 10 (h / 100)).length := List.length_pos.mpr hne
      rw [toDigits_step h (by omega), toDigits_step (h / 10) (by omega), e0]
      have hl : ((Nat.toDigits 10 (h / 100) ++ [Nat.digitChar (h / 10 % 10)]) ++
          [Nat.digitChar (h % 10)]).length = (Nat.toDigits 10 (h / 100)).length + 2 := by
        simp
      rw [if_neg (by rw [hl]; omega), hl]
      simp [List.take_append_eq_append_take, List.drop_append_eq_append_drop]

theorem parseFloat_twoDecimals (h : Nat) :
    parseFloat (String.mk (twoDecimalsRef h)) = (h : ℚ) / 100 := by
  unfold parseFloat twoDecimalsRef
  have hd := toDigits_isDigit (h / 100)
  have hp : Char.isDigit '.' = false := by decide
  obtain ⟨ht, hdr⟩ := takeWhile_append_stop Char.isDigit '.'
    [Nat.digitChar (h / 10 % 10), Nat.digitChar (h % 10)] hp _ hd
  simp only [ht, hdr]
  have d1 : (Nat.digitChar (h / 10 % 10)).isDigit = true :=
    digitChar_isDigit _ (Nat.mod_lt _ (by norm_num))
  have d0 : (Nat.digitChar (h % 10)).isDigit = true :=
    digitChar_isDigit _ (Nat.mod_lt _ (by norm_num))
  have htw : [Nat.digitChar (h / 10 % 10), Nat.digitChar (h % 10)].takeWhile Char.isDigit =
      [Nat.digitChar (h / 10 % 10), Nat.digitChar (h % 10)] := by
    simp [List.takeWhile, d1, d0]
  rw [htw, parseDigits_toDigits]
  have hv : parseDigits [Nat.digitChar (h / 10 % 10), Nat.digitChar (h % 10)] = h % 100 := by
    simp only [parseDigits, List.foldl]
    rw [digitValue_digitChar _ (Nat.mod_lt _ (by norm_num)),
      digitValue_digitChar _ (Nat.mod_lt _ (by norm_num))]
    omega
  rw [hv]
  have hsplit : (h : ℚ) = ((h / 100 : ℕ) : ℚ) * 100 + ((h % 100 : ℕ) : ℚ) := by
    have : h = h / 100 * 100 + h % 100 := by omega
    exact_mod_cast this
  simp only [List.length_cons, List.length_nil]
  rw [hsplit]
  push_cast
  field_simp
  ring

theorem floor_natCast_div (m d : Nat) : ⌊(m : ℚ) / (d : ℚ)⌋₊ = m / d :=
  Nat.floor_div_eq_div m d

theorem fractionDigits_hundredths (fuel m : Nat) (hm : m < 100) :
    fractionDigits (fuel + 2) ((m : ℚ) / 100) =
      if m = 0 then []
      else if m % 10 = 0 then [Nat.digitChar (m / 10)]
      else [Nat.digitChar (m / 10), Nat.digitChar (m % 10)] := by
  by_cases h0 : m = 0
  · subst h0
    simp [fractionDigits]
  · rw [if_neg h0]
    have hq : ((m : ℚ) / 100) ≠ 0 := by
      have : (m : ℚ) ≠ 0 := by exact_mod_cast h0
      positivity
    have e1 : (m : ℚ) / 100 * 10 = (m : ℚ) / ((10 : ℕ) : ℚ) := by push_cast; ring
    have f1 : ⌊(m : ℚ) / 100 * 10⌋₊ = m / 10 := by rw [e1, floor_natCast_div]
    have hsplit : (m : ℚ) = ((m / 10 : ℕ) : ℚ) * 10 + ((m % 10 : ℕ) : ℚ) := by
      have : m = m / 10 * 10 + m % 10 := by omega
      exact_mod_cast this
    have r1 : (m : ℚ) / 100 * 10 - ((m / 10 : ℕ) : ℚ) = ((m % 10 : ℕ) : ℚ) / 10 := by
      linear_combination (1 / 10 : ℚ) * hsplit
    simp only [fractionDigits, if_neg hq, f1, r1]
    by_cases h1 : m % 10 = 0
    · rw [if_pos h1, h1]
      simp
    · rw [if_neg h1]
      have hq2 : (((m % 10 : ℕ) : ℚ) / 10) ≠ 0 := by
        have : ((m % 10 : ℕ) : ℚ) ≠ 0 := by exact_mod_cast h1
        positivity
      have f2 : ⌊((m % 10 : ℕ) : ℚ) / 10 * 10⌋₊ = m % 10 := by
        rw [div_mul_cancel₀ _ (by norm_num : (10 : ℚ) ≠ 0)]
        exact Nat.floor_natCast _
      have r2 : ((m % 10 : ℕ) : ℚ) / 10 * 10 - ((m % 10 : ℕ) : ℚ) = 0 := by
        rw [div_mul_cancel₀ _ (by norm_num : (10 : ℚ) ≠ 0)]
        ring
      cases fuel with
      | zero => simp [fractionDigits, h1, f2]
      | succ k => simp [fractionDigits, h1, f2, r2]

theorem numberToStringChars_hundredths (h : Nat) :
    numberToStringChars ((h : ℚ) / 100) = renderHundredths h := by
  unfold numberToStringChars renderHundredths
  have e100 : (h : ℚ) / 100 = (h : ℚ) / ((100 : ℕ) : ℚ) := by norm_num
  have fl : ⌊(h : ℚ) / 100⌋₊ = h / 100 := by rw [e100, floor_natCast_div]
  have hsplit : (h : ℚ) = ((h / 100 : ℕ) : ℚ) * 100 + ((h % 100 : ℕ) : ℚ) := by
    have : h = h / 100 * 100 + h % 100 := by omega
    exact_mod_cast this
  have fr : (h : ℚ) / 100 - ((h / 100 : ℕ) : ℚ) = ((h % 100 : ℕ) : ℚ) / 100 := by
    linear_combination (1 / 100 : ℚ) * hsplit
  simp only [fl, fr]
  rw [fractionDigits_hundredths 15 (h % 100) (Nat.mod_lt _ (by norm_num))]
  have m1 : h % 100 / 10 = h / 10 % 10 := by omega
  have m2 : h % 100 % 10 = h % 10 := by omega
  rw [m1, m2]
  by_cases h0 : h % 100 = 0
  · have : ((h % 100 : ℕ) : ℚ) / 100 = 0 := by rw [h0]; norm_num
    rw [if_pos this, if_pos h0]
  · have : ((h % 100 : ℕ) : ℚ) / 100 ≠ 0 := by
      have : ((h % 100 : ℕ) : ℚ) ≠ 0 := by exact_mod_cast h0
      positivity
    rw [if_neg this, if_neg h0, if_neg h0]
    by_cases h1 : h % 10 = 0
    · rw [if_pos h1, if_pos h1]
    · rw [if_neg h1, if_neg h1]

theorem stripFractionRef_twoDecimals (h : Nat) :
    stripFractionRef (twoDecimalsRef h) = renderHundredths h := by
  unfold stripFractionRef twoDecimalsRef renderHundredths
  have hne := toDigits_ne_nil (h / 100)
  have c0 := digitChar_eq_zero_iff (h % 10) (Nat.mod_lt _ (by norm_num))
  have c1 := digitChar_eq_zero_iff (h / 10 % 10) (Nat.mod_lt _ (by norm_num))
  have p0 := digitChar_ne_point (h % 10) (Nat.mod_lt _ (by norm_num))
  have p1 := digitChar_ne_point (h / 10 % 10) (Nat.mod_lt _ (by norm_num))
  have hz : ('.' == '0') = false := by decide
  by_cases h0 : h % 10 = 0
  · by_cases h1 : h / 10 % 10 = 0
    · have h100 : h % 100 = 0 := by omega
      have d0 : Nat.digitChar (h % 10) = '0' := c0.mpr h0
      have d1 : Nat.digitChar (h / 10 % 10) = '0' := c1.mpr h1
      simp [h100, d0, d1, List.dropWhile, hz]
    · have h100 : h % 100 ≠ 0 := by omega
      have d0 : Nat.digitChar (h % 10) = '0' := c0.mpr h0
      have d1 : (Nat.digitChar (h / 10 % 10) == '0') = false := by
        simpa using fun e => h1 (c1.mp e)
      simp [h100, h0, d1, List.dropWhile, p1, show Nat.digitChar 0 = '0' from rfl]
  · have h100 : h % 100 ≠ 0 := by omega
    have d0 : (Nat.digitChar (h % 10) == '0') = false := by
      simpa using fun e => h0 (c0.mp e)
    simp [h100, h0, d0, List.dropWhile, p0]

theorem floor_hundredths (n i : Nat) :
    ⌊(n : ℚ) / ((1024 : ℕ) : ℚ) ^ i * 100 + 1 / 2⌋₊ = hundredths n i := by
  unfold hundredths
  have hK : ((1024 : ℕ) : ℚ) ^ i ≠ 0 := by positivity
  have e : (n : ℚ) / ((1024 : ℕ) : ℚ) ^ i * 100 + 1 / 2 =
      ((200 * n + 1024 ^ i : ℕ) : ℚ) / ((2 * 1024 ^ i : ℕ) : ℚ) := by
    push_cast
    field_simp
    ring
  rw [e, floor_natCast_div]

theorem roundedHundredthsRef_eq (n i : Nat) : roundedHundredthsRef n i = hundredths n i := by
  unfold roundedHundredthsRef
  rw [round_eq, Int.floor_toNat]
  have := floor_hundredths n i
  simpa using this

theorem formatBytes_eq (n : Nat) (hn : n ≠ 0) :
    Root.formatBytes n =
      String.mk (renderHundredths (hundredths n (Nat.log 1024 n))) ++ " " ++
        elementToString ["Bytes", "KB", "MB"][Nat.log 1024 n]? := by
  unfold Root.formatBytes
  rw [if_neg hn]
  simp only
  have e : toFixed2 ((n : ℚ) / ((1024 : ℕ) : ℚ) ^ Nat.log 1024 n) =
      String.mk (twoDecimalsRef (hundredths n (Nat.log 1024 n))) := by
    unfold toFixed2
    rw [toFixed2Chars_eq, floor_hundredths]
  rw [e, parseFloat_twoDecimals]
  unfold numberToString
  rw [numberToStringChars_hundredths]

theorem webInterface_formatBytes_eq (n : Nat) :
    WebInterface.formatBytes n = Root.formatBytes n := rfl

theorem log_eq_unitIndexRef (n : Nat) (h1 : 1 ≤ n) (h2 : n < 1024 ^ 3) :
    Nat.log 1024 n = unitIndexRef n := by
  unfold unitIndexRef
  split_ifs with a b
  · exact Nat.log_of_lt a
  · exact Nat.log_eq_of_pow_le_of_lt_pow (by omega) (by omega)
  · exact Nat.log_eq_of_pow_le_of_lt_pow (by omega) (by omega)

theorem sizes_eq_unitRef (i : Nat) (h : i ≤ 2) :
    elementToString ["Bytes", "KB", "MB"][i]? = unitRef i := by
  interval_cases i <;> rfl

theorem unitIndexRef_le (n : Nat) : unitIndexRef n ≤ 2 := by
  unfold unitIndexRef
  split_ifs <;> omega

theorem formatBytes_1024 : Root.formatBytes 1024 = "1 KB" := by
  have hl : Nat.log 1024 1024 = 1 := Nat.log_eq_of_pow_le_of_lt_pow (by norm_num) (by norm_num)
  rw [formatBytes_eq 1024 (by norm_num), hl]
  have hh : hundredths 1024 1 = 100 := by norm_num [hundredths]
  rw [hh]
  decide

theorem formatBytes_1536 : Root.formatBytes 1536 = "1.5 KB" := by
  have hl : Nat.log 1024 1536 = 1 := Nat.log_eq_of_pow_le_of_lt_pow (by norm_num) (by norm_num)
  rw [formatBytes_eq 1536 (by norm_num), hl]
  have hh : hundredths 1536 1 = 150 := by norm_num [hundredths]
  rw [hh]
  decide

theorem formatBytes_1048576 : Root.formatBytes 1048576 = "1 MB" := by
  have hl : Nat.log 1024 1048576 = 2 :=
    Nat.log_eq_of_pow_le_of_lt_pow (by norm_num) (by norm_num)
  rw [formatBytes_eq 1048576 (by norm_num), hl]
  have hh : hundredths 1048576 2 = 100 := by norm_num [hundredths]
  rw [hh]
  decide

theorem formatBytes_1073741824 : Root.formatBytes 1073741824 = "1 undefined" := by
  have hl : Nat.log 1024 1073741824 = 3 :=
    Nat.log_eq_of_pow_le_of_lt_pow (by norm_num) (by norm_num)
  rw [formatBytes_eq 1073741824 (by norm_num), hl]
  have hh : hundredths 1073741824 3 = 100 := by norm_num [hundredths]
  rw [hh]
  decide

/-- C9: `formatBytes 0` is `0 Bytes`, and for `1 ≤ n < 1024 ^ 3`, with `i` the
index in `{0, 1, 2}` such that `1024 ^ i ≤ n < 1024 ^ (i + 1)`, `formatBytes n`
is the reference rendering: `n / 1024 ^ i` rounded to two decimals, ties up,
trailing fractional zeros and a bare point removed, a space, and the i-th unit
of (Bytes, KB, MB).  So 1024 gives `1 KB`, 1536 gives `1.5 KB`, 1048576 gives
`1 MB`; the copy in the simpler variant is the same function. -/
theorem formatBytes_matches_reference :
    Root.formatBytes 0 = "0 Bytes" ∧
    (∀ n : Nat, 1 ≤ n → n < 1024 ^ 3 →
      (1024 ^ unitIndexRef n ≤ n ∧ n < 1024 ^ (unitIndexRef n + 1) ∧ unitIndexRef n ≤ 2) ∧
      Root.formatBytes n = formatBytesRef n ∧
      WebInterface.formatBytes n = formatBytesRef n) ∧
    Root.formatBytes 1024 = "1 KB" ∧
    Root.formatBytes 1536 = "1.5 KB" ∧
    Root.formatBytes 1048576 = "1 MB" ∧
    WebInterface.formatBytes 0 = "0 Bytes" ∧
    (∀ n : Nat, WebInterface.formatBytes n = Root.formatBytes n) := by
  have main : ∀ n : Nat, 1 ≤ n → n < 1024 ^ 3 → Root.formatBytes n = formatBytesRef n := by
    intro n h1 h2
    have hn : n ≠ 0 := by omega
    rw [formatBytes_eq n hn, log_eq_unitIndexRef n h1 h2,
      sizes_eq_unitRef _ (unitIndexRef_le n)]
    unfold formatBytesRef
    rw [if_neg hn]
    simp only
    rw [roundedHundredthsRef_eq, stripFractionRef_twoDecimals]
  refine ⟨rfl, ?_, formatBytes_1024, formatBytes_1536, formatBytes_1048576, rfl,
    webInterface_formatBytes_eq⟩
  intro n h1 h2
  refine ⟨?_, main n h1 h2, ?_⟩
  · have hl := log_eq_unitIndexRef n h1 h2
    rw [← hl]
    refine ⟨Nat.pow_log_le_self 1024 (by omega), Nat.lt_pow_succ_log_self (by norm_num) n, ?_⟩
    rw [hl]
    exact unitIndexRef_le n
  · rw [webInterface_formatBytes_eq]
    exact main n h1 h2

theorem formatBytes_matches_reference_witness :
    1 ≤ 1536 ∧ 1536 < 1024 ^ 3 ∧ Root.formatBytes 1536 = formatBytesRef 1536 ∧
    unitIndexRef 1536 ≤ 2 :=
  ⟨by norm_num, by norm_num,
   (formatBytes_matches_reference.2.1 1536 (by norm_num) (by norm_num)).2.1,
   (formatBytes_matches_reference.2.1 1536 (by norm_num) (by norm_num)).1.2.2⟩

/-- C10: at one gibibyte the index `floor(log_1024 n)` is 3, outside the
three-element unit table, and `formatBytes` ends in the text `undefined`
instead of a unit; the same happens at two gibibytes, in both variants. -/
theorem formatBytes_unit_missing :
    Nat.log 1024 1073741824 = 3 ∧
    (["Bytes", "KB", "MB"] : List String)[Nat.log 1024 1073741824]? = none ∧
    Root.formatBytes 1073741824 = "1 undefined" ∧
    WebInterface.formatBytes 1073741824 = "1 undefined" ∧
    Root.formatBytes 2147483648 = "2 undefined" := by
  have hl : Nat.log 1024 1073741824 = 3 :=
    Nat.log_eq_of_pow_le_of_lt_pow (by norm_num) (by norm_num)
  refine ⟨hl, by rw [hl]; rfl, formatBytes_1073741824, ?_, ?_⟩
  · rw [webInterface_formatBytes_eq]
    exact formatBytes_1073741824
  · have hl2 : Nat.log 1024 2147483648 = 3 :=
      Nat.log_eq_of_pow_le_of_lt_pow (by norm_num) (by norm_num)
    rw [formatBytes_eq 2147483648 (by norm_num), hl2]
    have hh : hundredths 2147483648 3 = 200 := by norm_num [hundredths]
    rw [hh]
    decide

end ResumeOptimizer
